import Mathlib

set_option linter.unusedVariables false

/-!
# Verification of the forex market analyzer against its specification

Shallow embedding of the repository (files `app.py`, `utils/polygon_mock.py`,
`utils/polygon_api.py`, `utils/smc_functions.py`) in Lean 4, together with
theorems settling the specification claims about:

* the LLM function-calling orchestration loop (`run_analysis`,
  `execute_function_call` in `app.py`);
* the registry (`AVAILABLE_FUNCTIONS`) and the tool schema catalog
  (`FUNCTION_SCHEMAS`);
* the synthetic data generator (`utils/polygon_mock.py`) and the live
  provider with its fallback (`utils/polygon_api.py`);
* the "insufficient data" guards of the SMC analysis capabilities
  (`utils/smc_functions.py`).

Modeling conventions, used consistently below:

* Python floats are modeled as exact rationals (`ℚ`); `round(x, n)` is modeled
  as ideal decimal rounding half-to-even (`pyRound`).
* `datetime` instants are modeled as rational numbers (minutes on an abstract
  clock); `datetime.now()` / `datetime.utcnow().hour` become explicit
  environment parameters (`now`, `hour`).  ISO-formatted timestamps of one run
  compare exactly like the underlying instants, so candle timestamps are kept
  numeric.
* Randomness (`random.random`, `random.uniform`, `random.randint`,
  `random.choice`, `random.sample`) is modeled by explicit streams of draws
  passed as parameters: `rnd : ℕ → ℚ` for the real-valued draws and
  `rint : ℕ → ℕ` for the integer draws.  Distinct stream indices stand for
  distinct consecutive draws; theorems quantify over all streams.
* Python `list` slicing `l[a:b]` with negative indices is modeled by
  `pySlice` / `pySliceFrom` / `pySliceTo`; `l[i]` by `pyIndex` (total, with a
  default used only where the source guarantees the index is in range).
* `dict` results returned by the analysis capabilities are modeled by the
  JSON-like type `JVal`; a raised Python exception is modeled by the `.error`
  case of `Except String`.
* A network call (the Groq chat completion, the Polygon aggregate fetch) is
  modeled as an oracle function supplied by the environment whose result is an
  `Except String`, the `.error` case standing for a raised exception.
-/

namespace ForexAnalyzer

/-! ## Python-semantics helpers -/

/-- Python list slice `l[a:]` (negative indices count from the end). -/
def pySliceFrom {α : Type} (l : List α) (a : ℤ) : List α :=
  let n : ℤ := l.length
  let lo := if a < 0 then max 0 (n + a) else min a n
  l.drop lo.toNat

/-- Python list slice `l[:b]` (negative indices count from the end). -/
def pySliceTo {α : Type} (l : List α) (b : ℤ) : List α :=
  let n : ℤ := l.length
  let hi := if b < 0 then max 0 (n + b) else min b n
  l.take hi.toNat

/-- Python list slice `l[a:b]` (negative indices count from the end). -/
def pySlice {α : Type} (l : List α) (a b : ℤ) : List α :=
  let n : ℤ := l.length
  let lo := if a < 0 then max 0 (n + a) else min a n
  let hi := if b < 0 then max 0 (n + b) else min b n
  (l.take hi.toNat).drop lo.toNat

/-- Python list indexing `l[i]` (negative `i` counts from the end).  Total:
returns the default `d` where Python would raise `IndexError`; used only at
spots where the source guarantees the index is in range. -/
def pyIndex {α : Type} (l : List α) (i : ℤ) (d : α) : α :=
  let j : ℤ := if i < 0 then (l.length : ℤ) + i else i
  if 0 ≤ j then l.getD j.toNat d else d

/-- Python `range(a, b, -1)`: the integers from `a` down to `b + 1`. -/
def rangeDown (a b : ℤ) : List ℤ :=
  (List.range (a - b).toNat).map (fun k => a - k)

/-- Python `random.randint(lo, hi)` driven by one integer draw `r`:
always lands in `[lo, hi]`. -/
def pyRandint (lo hi : ℕ) (r : ℕ) : ℕ := lo + r % (hi - lo + 1)

/-- Python `random.choice(l)` driven by one integer draw `r`. -/
def pyChoice {α : Type} (l : List α) (d : α) (r : ℕ) : α :=
  l.getD (r % l.length) d

/-- One step of `pySample`: pick an element by index and remove it. -/
def pySampleStep {α : Type} (l : List α) (r : ℕ) : Option (α × List α) :=
  match l with
  | [] => none
  | x :: _ =>
    let idx := r % l.length
    some (l.getD idx x, l.eraseIdx idx)

/-- Python `random.sample(l, n)` (sampling without replacement) driven by a
stream of integer draws. -/
def pySample {α : Type} (pick : ℕ → ℕ) : ℕ → ℕ → List α → List α
  | 0, _, _ => []
  | n + 1, step, l =>
    match pySampleStep l (pick step) with
    | none => []
    | some (x, rest) => x :: pySample pick n (step + 1) rest

/-- Rounding half to even of a rational to an integer, the rounding mode of
Python `round`. -/
def roundQ (q : ℚ) : ℤ :=
  let n := q.floor
  let frac := q - n
  if frac < 1 / 2 then n
  else if 1 / 2 < frac then n + 1
  else if n % 2 = 0 then n else n + 1

/-- Python `round(q, digits)` modeled as ideal decimal rounding half-to-even
on exact rationals. -/
def pyRound (q : ℚ) (digits : ℕ) : ℚ :=
  (roundQ (q * 10 ^ digits) : ℚ) / 10 ^ digits

/-- Maximum of a list of rationals (`max(...)` in Python; the sources only
apply it to nonempty lists, where the seed is the first element). -/
def pyMaxQ (l : List ℚ) : ℚ :=
  match l with
  | [] => 0
  | x :: xs => xs.foldl max x

/-- Minimum of a list of rationals (`min(...)` in Python). -/
def pyMinQ (l : List ℚ) : ℚ :=
  match l with
  | [] => 0
  | x :: xs => xs.foldl min x

/-- Stable insertion into a sorted list: the new element goes after every
element strictly smaller under `lt`, before the first other one. -/
def pyInsert {α : Type} (lt : α → α → Bool) (x : α) : List α → List α
  | [] => [x]
  | y :: ys => if lt y x then y :: pyInsert lt x ys else x :: y :: ys

/-- Stable sort with strict comparison `lt`, modeling Python `sorted` /
`list.sort` (which are stable). -/
def pySort {α : Type} (lt : α → α → Bool) : List α → List α
  | [] => []
  | x :: xs => pyInsert lt x (pySort lt xs)

/-- Python string uppercasing (`str.upper`), ASCII as used by the repository. -/
def pyUpper (s : String) : String := String.mk (s.data.map Char.toUpper)

/-- Python `str.capitalize`: first character uppercased, rest lowercased. -/
def pyCapitalize (s : String) : String :=
  match s.data with
  | [] => ""
  | c :: rest => String.mk (c.toUpper :: rest.map Char.toLower)

/-- Python `str.title` on space-separated words, as used on the snake-case
labels of the sources after `.replace("_", " ")`. -/
def pyTitle (s : String) : String :=
  String.intercalate " " ((s.splitOn " ").map pyCapitalize)

/-- Python substring membership `pat in s`. -/
def strHasInfixAux (pat : List Char) : List Char → Bool
  | [] => pat.isEmpty
  | c :: rest => (pat == (c :: rest).take pat.length) || strHasInfixAux pat rest

/-- Python `pat in s` on strings. -/
def pyIn (pat s : String) : Bool := strHasInfixAux pat.data s.data

/-- Decimal rendering of a rational whose denominator divides `10^6`, used to
model Python `str(float)` inside the human-readable interpretation strings
(e.g. `f"... {round(level, 4)} ..."`).  Keeps at least one fractional digit,
like Python (`str(1.0) = "1.0"`).  Falls back to the raw rational rendering
for denominators that do not divide `10^6`. -/
def pyFloatStr (q : ℚ) : String :=
  let sign := if q < 0 then "-" else ""
  let x := |q|
  let n := (x * 10 ^ 6).num
  if (x * 10 ^ 6).den = 1 then
    let whole := n / 10 ^ 6
    let fracDigits := (Nat.toDigits 10 ((n % 10 ^ 6).toNat + 10 ^ 6)).drop 1
    let trimmed := (fracDigits.reverse.dropWhile (fun c => c == '0')).reverse
    let fracPart := if trimmed.isEmpty then "0" else String.mk trimmed
    sign ++ toString whole ++ "." ++ fracPart
  else
    toString q

/-! ## JSON-like values

Models the Python `dict` / `list` / scalar payloads produced by the analysis
capabilities and transported back to the LLM. -/

/-- A JSON-like value: the shape of every capability result
(`FindingsRecord` / `ErrorRecord` in the specification). -/
inductive JVal : Type where
  | str (s : String)
  | num (q : ℚ)
  | bool (b : Bool)
  | null
  | arr (items : List JVal)
  | obj (fields : List (String × JVal))

/-- Field lookup in an object value (`d[key]` / `d.get(key)`). -/
def jGet (j : JVal) (key : String) : Option JVal :=
  match j with
  | .obj fields => fields.lookup key
  | _ => none

/-- Numeric field access with default (used for sort keys, `d.get` defaults). -/
def jGetNum (j : JVal) (key : String) (d : ℚ) : ℚ :=
  match jGet j key with
  | some (.num q) => q
  | _ => d

/-- String field access with default. -/
def jGetStr (j : JVal) (key : String) (d : String) : String :=
  match jGet j key with
  | some (.str s) => s
  | _ => d

/-- Python `sorted(objs, key=lambda x: x[key])` on a list of JSON objects with
a numeric sort key (stable, ascending). -/
def sortByNumKey (key : String) (l : List JVal) : List JVal :=
  pySort (fun a b => decide (jGetNum a key 0 < jGetNum b key 0)) l

/-! ## Market data model

The `dict` returned by `get_forex_data` (both providers), as a structure.
Analysis capabilities read it with `.get(...)` and defaults in Python; the
decoder `decodeSnapshot` below applies exactly those defaults. -/

/-- One OHLCV candle (the dict with keys timestamp, open, high, low,
close, volume).  `open` is a Lean keyword, hence the field name `open_`. -/
structure Candle where
  timestamp : ℚ
  open_ : ℚ
  high : ℚ
  low : ℚ
  close : ℚ
  volume : ℚ
deriving DecidableEq

/-- The `indicators` sub-dict of a market snapshot. -/
structure Indicators where
  rsi : ℚ
  atr : ℚ
  trend : String
  support : ℚ
  resistance : ℚ
deriving DecidableEq

/-- The `market_context` sub-dict of a market snapshot. -/
structure MarketContext where
  volatility : String
  session : String
  momentum : String
deriving DecidableEq

/-- The `metadata` sub-dict of a market snapshot. -/
structure Metadata where
  data_points : ℕ
  timestamp : ℚ
  source : String
deriving DecidableEq

/-- The full market snapshot returned by `get_forex_data`. -/
structure MarketSnapshot where
  pair : String
  timeframe : String
  current_price : ℚ
  candles : List Candle
  indicators : Indicators
  market_context : MarketContext
  metadata : Metadata
deriving DecidableEq

/-! ## Shared indicator helpers

`calculate_rsi` appears verbatim in both `polygon_mock.py` (nested) and
`polygon_api.py` (top level); embedded once. -/

/-- `calculate_rsi(prices, period)` from `polygon_api.py` /
`polygon_mock.py`. -/
def calculate_rsi (prices : List ℚ) (period : ℕ) : ℚ :=
  if prices.length < period then 50
  else
    let changes := List.zipWith (fun a b => b - a) prices prices.tail
    let gains := changes.map (fun c => max c 0)
    let losses := changes.map (fun c => max (-c) 0)
    let avg_gain := (pySliceFrom gains (-(period : ℤ))).sum / (period : ℚ)
    let avg_loss := (pySliceFrom losses (-(period : ℤ))).sum / (period : ℚ)
    if avg_loss = 0 then 100
    else
      let rs := avg_gain / avg_loss
      pyRound (100 - 100 / (1 + rs)) 2

/-- `get_market_session()` / `_get_market_session()`: the trading session for
a UTC hour. -/
def get_market_session (hour : ℕ) : String :=
  if hour < 8 then "asian"
  else if hour < 16 then "london"
  else if hour < 24 then "newyork"
  else "unknown"

/-! ## Synthetic data provider (`utils/polygon_mock.py`) -/

namespace PolygonMock

/-- Environment of one `get_forex_data` call: the random draws, the current
clock instant (in minutes) and the current UTC hour. -/
structure MockEnv where
  u : ℕ → ℚ
  rv : ℕ → ℕ
  now : ℚ
  hour : ℕ

/-- The `price_ranges` table of realistic price ranges per pair. -/
def price_ranges : List (String × (ℚ × ℚ)) :=
  [("EURUSD", (1.0500, 1.1200)),
   ("GBPUSD", (1.2400, 1.3100)),
   ("USDJPY", (140.00, 152.00)),
   ("AUDUSD", (0.6300, 0.6800)),
   ("USDCHF", (0.8400, 0.9100)),
   ("GBPJPY", (175.00, 195.00)),
   ("EURJPY", (150.00, 165.00)),
   ("AUDJPY", (90.00, 102.00))]

/-- The `timeframe_minutes` table with its `.get(timeframe, 60)` default:
minutes of candle spacing per timeframe, 60 for unknown timeframes. -/
def timeframe_minutes (timeframe : String) : ℕ :=
  (([("1m", 1), ("5m", 5), ("15m", 15), ("30m", 30),
     ("1h", 60), ("4h", 240), ("1d", 1440)] :
      List (String × ℕ)).lookup timeframe).getD 60

/-- The candle-generation loop `for i in range(100, 0, -1)` of
`get_forex_data`.  The first argument counts the remaining iterations, so at
each step it equals the Python loop variable `i`; the price threads through as
each candle closes.  `datetime.now()` is modeled by the fixed instant `now`
(the real clock advances by microseconds per iteration while the `minutes*i`
offset shrinks by at least one minute, so using one instant preserves all
ordering behavior). -/
def genCandles (u : ℕ → ℚ) (rv : ℕ → ℕ) (minutes : ℚ) (now : ℚ) :
    ℕ → ℚ → List Candle
  | 0, _ => []
  | i + 1, price =>
    let change := u (3 * i + 1) * price
    let open_price := price
    let high_price := price + |u (3 * i + 2) * price|
    let low_price := price - |u (3 * i + 3) * price|
    let close_price := price + change
    let volume := pyRandint 50000 500000 (rv i)
    { timestamp := now - minutes * (i + 1),
      open_ := pyRound open_price 4,
      high := pyRound high_price 4,
      low := pyRound low_price 4,
      close := pyRound close_price 4,
      volume := (volume : ℚ) } :: genCandles u rv minutes now i close_price

/-- `get_forex_data(pair, timeframe)` of `utils/polygon_mock.py`: the
synthetic market-data generator.  `random.uniform(base_min, base_max)` is
modeled by the draw `env.u 0` (an arbitrary rational; the theorems quantify
over all draw streams). -/
def get_forex_data (env : MockEnv) (pair timeframe : String) : MarketSnapshot :=
  let pr := (price_ranges.lookup (pyUpper pair)).getD (1.0000, 1.2000)
  let base_min := pr.1
  let base_max := pr.2
  let current_price := pyRound (env.u 0) 4
  let minutes : ℚ := (timeframe_minutes timeframe : ℚ)
  let candles := genCandles env.u env.rv minutes env.now 100 current_price
  let closes := candles.map (·.close)
  let rsi := calculate_rsi closes 14
  let recent_closes := pySliceFrom closes (-20)
  let trend :=
    if pyIndex recent_closes (-1) 0 > pyIndex recent_closes 0 0 then "bullish"
    else "bearish"
  let highs := (pySliceFrom candles (-14)).map (·.high)
  let lows := (pySliceFrom candles (-14)).map (·.low)
  let atr := pyRound ((List.zipWith (fun h l => h - l) highs lows).sum /
    (highs.length : ℚ)) 4
  let recent_highs := pySort (fun a b => decide (b < a))
    ((pySliceFrom candles (-50)).map (·.high))
  let recent_lows := pySort (fun a b => decide (a < b))
    ((pySliceFrom candles (-50)).map (·.low))
  let support_level := pyRound ((recent_lows.take 5).sum / 5) 4
  let resistance_level := pyRound ((recent_highs.take 5).sum / 5) 4
  { pair := pyUpper pair,
    timeframe := timeframe,
    current_price := pyRound (pyIndex closes (-1) 0) 4,
    candles := candles,
    indicators :=
      { rsi := rsi, atr := atr, trend := trend,
        support := support_level, resistance := resistance_level },
    market_context :=
      { volatility := if atr > (base_max - base_min) * 0.01 then "high"
                      else "normal",
        session := get_market_session env.hour,
        momentum := if |rsi - 50| > 20 then "strong" else "weak" },
    metadata :=
      { data_points := candles.length, timestamp := env.now,
        source := "mock_data" } }

end PolygonMock

/-! ## Live data provider (`utils/polygon_api.py`) -/

namespace PolygonApi

/-- One aggregate bar returned by the Polygon client (`agg.timestamp` in
milliseconds, OHLC floats, volume). -/
structure Agg where
  timestamp : ℚ
  open_ : ℚ
  high : ℚ
  low : ℚ
  close : ℚ
  volume : ℚ

/-- The `timeframe_map` table with its `.get` default of (1, hour):
Polygon multiplier/timespan per timeframe. -/
def timeframe_map (timeframe : String) : ℕ × String :=
  (([("1m", (1, "minute")), ("5m", (5, "minute")), ("15m", (15, "minute")),
     ("30m", (30, "minute")), ("1h", (1, "hour")), ("4h", (4, "hour")),
     ("1d", (1, "day"))] :
      List (String × (ℕ × String))).lookup timeframe).getD (1, "hour")

/-- The `minutes_per_candle` table with its `.get(timeframe, 60)` default,
used to size the request date range. -/
def minutes_per_candle (timeframe : String) : ℕ :=
  (([("1m", 1), ("5m", 5), ("15m", 15), ("30m", 30),
     ("1h", 60), ("4h", 240), ("1d", 1440)] :
      List (String × ℕ)).lookup timeframe).getD 60

/-- Environment of one live `get_forex_data` call.

* `api_key`: `st.secrets.get("POLYGON_API_KEY")`; `none` models both a
  missing key and a failing secrets store (either way the source falls back).
* `get_aggs`: the outcome of `client.get_aggs(ticker, multiplier, timespan,
  ...)`; the `.error` case models any raised exception on the live path
  (client construction included — both `except` handlers of the source fall
  back to the mock identically).
* `hour`, `now`: the UTC hour and current instant.
* `mock`: the environment handed to the synthetic generator on fallback. -/
structure PolygonEnv where
  api_key : Option String
  get_aggs : String → ℕ → String → Except String (List Agg)
  hour : ℕ
  now : ℚ
  mock : PolygonMock.MockEnv

/-- `get_forex_data(pair, timeframe)` of `utils/polygon_api.py`: fetch live
data from Polygon, falling back to the synthetic generator when the API key
is missing, the fetch raises, or the fetch returns no aggregates. -/
def get_forex_data (env : PolygonEnv) (pair timeframe : String) :
    MarketSnapshot :=
  match env.api_key with
  | none => PolygonMock.get_forex_data env.mock pair timeframe
  | some _ =>
    let ticker := "C:" ++ pyUpper pair
    let mt := timeframe_map timeframe
    match env.get_aggs ticker mt.1 mt.2 with
    | .error _ => PolygonMock.get_forex_data env.mock pair timeframe
    | .ok aggs =>
      if aggs.length = 0 then PolygonMock.get_forex_data env.mock pair timeframe
      else
        let candles := aggs.map (fun a =>
          { timestamp := a.timestamp / 1000,
            open_ := pyRound a.open_ 4,
            high := pyRound a.high 4,
            low := pyRound a.low 4,
            close := pyRound a.close 4,
            volume := a.volume : Candle })
        let closes := candles.map (·.close)
        let current_price := pyIndex closes (-1) 0
        let rsi := calculate_rsi closes 14
        let recent_closes := pySliceFrom closes (-20)
        let trend :=
          if pyIndex recent_closes (-1) 0 > pyIndex recent_closes 0 0 then
            "bullish"
          else "bearish"
        let highs := (pySliceFrom candles (-14)).map (·.high)
        let lows := (pySliceFrom candles (-14)).map (·.low)
        let atr := pyRound ((List.zipWith (fun h l => h - l) highs lows).sum /
          (highs.length : ℚ)) 4
        let recent_highs := pySort (fun a b => decide (b < a))
          ((pySliceFrom candles (-50)).map (·.high))
        let recent_lows := pySort (fun a b => decide (a < b))
          ((pySliceFrom candles (-50)).map (·.low))
        let support_level := pyRound ((recent_lows.take 5).sum / 5) 4
        let resistance_level := pyRound ((recent_highs.take 5).sum / 5) 4
        { pair := pyUpper pair,
          timeframe := timeframe,
          current_price := current_price,
          candles := candles,
          indicators :=
            { rsi := rsi, atr := atr, trend := trend,
              support := support_level, resistance := resistance_level },
          market_context :=
            { volatility := if atr > 0.01 then "high" else "normal",
              session := get_market_session env.hour,
              momentum := if |rsi - 50| > 20 then "strong" else "weak" },
          metadata :=
            { data_points := candles.length, timestamp := env.now,
              source := "polygon.io" } }

end PolygonApi

/-! ## SMC analysis capabilities (`utils/smc_functions.py`)

Each capability takes the random draw streams it uses (`rnd` for
`random.random()` / `random.uniform`, `rint` for `random.randint` /
`random.choice`) and the market snapshot, and returns the result `dict` as a
`JVal`.  The Python bodies read the snapshot with `.get(...)` and defaults;
on the typed snapshot these are plain field accesses (the JSON decoder used
by the dispatcher applies exactly the same defaults). -/

namespace Smc

/-- Fallback candle for the total indexing helper; never reached on the
guarded paths of the sources. -/
def dummyCandle : Candle :=
  { timestamp := 0, open_ := 0, high := 0, low := 0, close := 0, volume := 0 }

/-- `detect_bos(data, timeframe)`: Break of Structure detection. -/
def detect_bos (rnd : ℕ → ℚ) (rint : ℕ → ℕ) (data : MarketSnapshot)
    (timeframe : String) : JVal :=
  let candles := data.candles
  let current_price := data.current_price
  let trend := data.indicators.trend
  if candles.length < 20 then
    .obj [("detected", .bool false),
          ("message", .str "Insufficient data for BOS detection")]
  else
    let bos_probability := rnd 0
    if bos_probability > 0.4 then
      let direction := if trend = "bullish" then "bullish" else "bearish"
      let recent_candles := pySliceFrom candles (-20)
      let lvl :=
        if direction = "bullish" then
          (pyMaxQ ((pySliceTo recent_candles (-5)).map (·.high)), "swing_high")
        else
          (pyMinQ ((pySliceTo recent_candles (-5)).map (·.low)), "swing_low")
      let bos_level := lvl.1
      let structure_type := lvl.2
      let price_distance := |current_price - bos_level| / bos_level
      let confidence := min 95 (60 + price_distance * 10000)
      let bos_candle := pyIndex candles (-(pyRandint 1 5 (rint 0) : ℤ)) dummyCandle
      let pullback :=
        pyRound (bos_level * (if direction = "bullish" then 0.998 else 1.002)) 4
      .obj [("detected", .bool true),
            ("direction", .str direction),
            ("bos_level", .num (pyRound bos_level 4)),
            ("current_price", .num current_price),
            ("structure_type", .str structure_type),
            ("confidence", .num (pyRound confidence 1)),
            ("timeframe", .str timeframe),
            ("timestamp", .num bos_candle.timestamp),
            ("interpretation", .str (pyCapitalize direction ++
              " BOS detected - trend continuation expected")),
            ("trading_implication", .str ("Look for pullback to " ++
              pyFloatStr pullback ++ " for entry"))]
    else
      .obj [("detected", .bool false),
            ("reason", .str "No clear structure break identified"),
            ("current_trend", .str trend),
            ("recommendation", .str "Wait for clearer structure formation")]

/-- `detect_choch(data)`: Change of Character detection. -/
def detect_choch (rnd : ℕ → ℚ) (rint : ℕ → ℕ) (data : MarketSnapshot) : JVal :=
  let candles := data.candles
  let current_price := data.current_price
  let trend := data.indicators.trend
  let rsi := data.indicators.rsi
  if candles.length < 30 then
    .obj [("detected", .bool false),
          ("message", .str "Insufficient data for CHoCH detection")]
  else
    let choch_probability := rnd 0 +
      (if (trend = "bullish" ∧ rsi > 70) ∨ (trend = "bearish" ∧ rsi < 30) then
        (0.3 : ℚ) else 0)
    if choch_probability > 0.5 then
      let reversal_direction := if trend = "bullish" then "bearish" else "bullish"
      let recent_candles := pySliceFrom candles (-15)
      let pts :=
        if reversal_direction = "bearish" then
          (pyMaxQ ((pySliceTo recent_candles 10).map (·.high)),
           pyMinQ ((pySliceFrom recent_candles 10).map (·.low)))
        else
          (pyMinQ ((pySliceTo recent_candles 10).map (·.low)),
           pyMaxQ ((pySliceFrom recent_candles 10).map (·.high)))
      let failure_point := pts.1
      let trigger_level := pts.2
      let strength_factors :=
        (if (reversal_direction = "bearish" ∧ rsi > 70) ∨
            (reversal_direction = "bullish" ∧ rsi < 30) then
          ["rsi_divergence"] else []) ++
        (if rnd 1 > 0.5 then ["volume_confirmation"] else []) ++
        (if rnd 2 > 0.6 then ["multiple_rejections"] else [])
      let strength_score := strength_factors.length * 25 + pyRandint 10 25 (rint 0)
      let ts := (pyIndex candles (-(pyRandint 1 3 (rint 1) : ℤ)) dummyCandle).timestamp
      .obj [("detected", .bool true),
            ("reversal_direction", .str reversal_direction),
            ("previous_trend", .str trend),
            ("failure_point", .num (pyRound failure_point 4)),
            ("trigger_level", .num (pyRound trigger_level 4)),
            ("current_price", .num current_price),
            ("strength", .num (min 95 strength_score : ℕ)),
            ("strength_factors", .arr (strength_factors.map .str)),
            ("timestamp", .num ts),
            ("interpretation", .str ("CHoCH detected - potential " ++
              reversal_direction ++ " reversal from " ++ trend ++ " trend")),
            ("trading_implication", .str ("Watch for confirmation below/above " ++
              pyFloatStr (pyRound trigger_level 4) ++ " to enter " ++
              reversal_direction ++ " positions"))]
    else
      .obj [("detected", .bool false),
            ("reason", .str "Trend structure remains intact"),
            ("current_trend", .str trend),
            ("recommendation", .str "Continue trading with the trend")]

/-- `detect_market_structure_break(data)`: aggressive MSB detection. -/
def detect_market_structure_break (rnd : ℕ → ℚ) (rint : ℕ → ℕ)
    (data : MarketSnapshot) : JVal :=
  let candles := data.candles
  let current_price := data.current_price
  let trend := data.indicators.trend
  if candles.length < 25 then
    .obj [("detected", .bool false),
          ("message", .str "Insufficient data for MSB detection")]
  else
    if rnd 0 > 0.6 then
      let direction := if trend = "bullish" then "bullish" else "bearish"
      let recent_candles := pySliceFrom candles (-25)
      let md :=
        if direction = "bullish" then
          let msb_level := pyMaxQ ((pySliceTo recent_candles 15).map (·.high))
          (msb_level, current_price - msb_level)
        else
          let msb_level := pyMinQ ((pySliceTo recent_candles 15).map (·.low))
          (msb_level, msb_level - current_price)
      let msb_level := md.1
      let break_distance := md.2
      let momentum_strength := pyRandint 70 95 (rint 0)
      let beyond :=
        pyRound (msb_level * (if direction = "bullish" then 1.002 else 0.998)) 4
      .obj [("detected", .bool true),
            ("direction", .str direction),
            ("msb_level", .num (pyRound msb_level 4)),
            ("break_distance_pips", .num (pyRound (|break_distance| * 10000) 1)),
            ("momentum_strength", .num (momentum_strength : ℕ)),
            ("interpretation", .str ("Strong " ++ direction ++
              " MSB - aggressive continuation expected")),
            ("entry_suggestion", .str
              ("Enter on minimal pullback, target extension beyond " ++
               pyFloatStr beyond))]
    else
      .obj [("detected", .bool false),
            ("reason", .str "No significant market structure break")]

/-- `detect_liquidity_sweep(data)`: stop-hunt detection. -/
def detect_liquidity_sweep (rnd : ℕ → ℚ) (rint : ℕ → ℕ)
    (data : MarketSnapshot) : JVal :=
  let candles := data.candles
  let current_price := data.current_price
  if candles.length < 30 then
    .obj [("sweeps", .arr []), ("message", .str "Insufficient data")]
  else
    let num_sweeps := pyRandint 0 2 (rint 0)
    let sweeps := (List.range num_sweeps).map (fun i =>
      let sweep_type := pyChoice ["buy_side", "sell_side"] "buy_side"
        (rint (10 * i + 1))
      let lookback : ℤ := 30 + i * 10
      let relevant_candles := pySlice candles (-lookback) (-lookback + 15)
      let lr :=
        if sweep_type = "buy_side" then
          (pyMaxQ (relevant_candles.map (·.high)),
           if rnd (10 * i + 3) > 0.4 then "bearish_reversal" else "continuation")
        else
          (pyMinQ (relevant_candles.map (·.low)),
           if rnd (10 * i + 3) > 0.4 then "bullish_reversal" else "continuation")
      let liquidity_level := lr.1
      let reaction := lr.2
      let sweep_candle :=
        pyIndex candles (-(pyRandint 5 15 (rint (10 * i + 2)) : ℤ)) dummyCandle
      .obj [("type", .str sweep_type),
            ("liquidity_level", .num (pyRound liquidity_level 4)),
            ("sweep_time", .num sweep_candle.timestamp),
            ("reaction", .str reaction),
            ("distance_from_current",
             .num (pyRound (|current_price - liquidity_level| * 10000) 1)),
            ("interpretation", .str (pyTitle (sweep_type.replace "_" " ") ++
              " liquidity swept - watch for " ++ (reaction.replace "_" " ")))])
    .obj [("sweeps", .arr sweeps),
          ("total_sweeps", .num (sweeps.length : ℕ)),
          ("trading_context", .str (if sweeps.isEmpty then
            "No recent liquidity sweeps"
          else "Liquidity sweeps often precede reversals"))]

/-- `identify_liquidity_pools(data)`: stop-loss cluster detection. -/
def identify_liquidity_pools (rint : ℕ → ℕ) (data : MarketSnapshot) : JVal :=
  let candles := data.candles
  let current_price := data.current_price
  if candles.length < 40 then
    .obj [("pools", .arr []), ("message", .str "Insufficient data")]
  else
    let num_pools := pyRandint 1 3 (rint 0)
    let pools := (List.range num_pools).map (fun i =>
      let pool_type := pyChoice
        ["above_highs", "below_lows", "equal_highs", "equal_lows"]
        "above_highs" (rint (10 * i + 1))
      let lookback_start : ℤ := 15 + i * 15
      let lookback_end : ℤ := lookback_start + 20
      let relevant_candles := pySlice candles (-lookback_end) (-lookback_start)
      let ld :=
        if pyIn "high" pool_type then
          let highs := relevant_candles.map (·.high)
          let pool_level := pyMaxQ highs
          (pool_level, (highs.filter (fun h =>
            decide (|h - pool_level| / pool_level < 0.0003))).length)
        else
          let lows := relevant_candles.map (·.low)
          let pool_level := pyMinQ lows
          (pool_level, (lows.filter (fun l =>
            decide (|l - pool_level| / pool_level < 0.0003))).length)
      let pool_level := ld.1
      let density := ld.2
      let magnetism := pyRandint 60 90 (rint (10 * i + 2))
      .obj [("type", .str pool_type),
            ("level", .num (pyRound pool_level 4)),
            ("density", .num (density : ℕ)),
            ("magnetism", .num (magnetism : ℕ)),
            ("distance_pips",
             .num (pyRound (|current_price - pool_level| * 10000) 1)),
            ("interpretation", .str ("Liquidity pool " ++
              (pool_type.replace "_" " ") ++ " - expect price attraction"))])
    let sorted_pools := sortByNumKey "distance_pips" pools
    .obj [("pools", .arr sorted_pools),
          ("nearest_pool", match sorted_pools.head? with
            | some p => p
            | none => .null),
          ("recommendation", .str
            "Watch for price to reach and react at these liquidity levels")]

/-- `detect_liquidity_void(data)`: unfilled gap detection. -/
def detect_liquidity_void (rnd : ℕ → ℚ) (rint : ℕ → ℕ)
    (data : MarketSnapshot) : JVal :=
  let candles := data.candles
  if candles.length < 30 then
    .obj [("voids", .arr []), ("message", .str "Insufficient data")]
  else
    let n : ℤ := candles.length
    let voids := (rangeDown (n - 5) (n - 25)).filterMap (fun i =>
      if rnd i.toNat > 0.85 then
        let void_high := (pyIndex candles (i - 1) dummyCandle).low
        let void_low := (pyIndex candles i dummyCandle).high
        if void_high > void_low then
          let void_size_pips := (void_high - void_low) * 10000
          if void_size_pips > 5 then
            let fill_probability := pyRandint 70 95 (rint i.toNat)
            some (JVal.obj
              [("void_high", .num (pyRound void_high 4)),
               ("void_low", .num (pyRound void_low 4)),
               ("void_midpoint", .num (pyRound ((void_high + void_low) / 2) 4)),
               ("size_pips", .num (pyRound void_size_pips 1)),
               ("timestamp", .num (pyIndex candles i dummyCandle).timestamp),
               ("fill_probability", .num (fill_probability : ℕ)),
               ("status", .str "unfilled"),
               ("interpretation", .str ("Liquidity void of " ++
                 pyFloatStr (pyRound void_size_pips 1) ++
                 " pips - likely to be filled"))])
          else none
        else none
      else none)
    .obj [("voids", .arr (voids.take 3)),
          ("total_voids", .num (voids.length : ℕ)),
          ("recommendation", .str
            "Voids act as magnets - expect price to fill these gaps")]

/-- Helper `_generate_order_block_setup(block_type, zone_high, zone_low,
current_price)`. -/
def generate_order_block_setup (block_type : String) (zone_high zone_low
    current_price : ℚ) : JVal :=
  if block_type = "demand" then
    let entry := pyRound ((zone_high + zone_low) / 2) 4
    let stop_loss := pyRound (zone_low * 0.9998) 4
    let take_profit := pyRound (entry + (entry - stop_loss) * 2.5) 4
    .obj [("direction", .str "BUY"),
          ("entry_zone", .str (pyFloatStr (pyRound zone_low 4) ++ " - " ++
            pyFloatStr (pyRound zone_high 4))),
          ("entry_price", .num entry),
          ("stop_loss", .num stop_loss),
          ("take_profit", .num take_profit),
          ("risk_reward", .num 2.5)]
  else
    let entry := pyRound ((zone_high + zone_low) / 2) 4
    let stop_loss := pyRound (zone_high * 1.0002) 4
    let take_profit := pyRound (entry - (stop_loss - entry) * 2.5) 4
    .obj [("direction", .str "SELL"),
          ("entry_zone", .str (pyFloatStr (pyRound zone_low 4) ++ " - " ++
            pyFloatStr (pyRound zone_high 4))),
          ("entry_price", .num entry),
          ("stop_loss", .num stop_loss),
          ("take_profit", .num take_profit),
          ("risk_reward", .num 2.5)]

/-- Helper `_generate_ob_recommendation(order_blocks, current_price, trend)`
(`current_price` is unused by the source body too). -/
def generate_ob_recommendation (order_blocks : List JVal)
    (current_price : ℚ) (trend : String) : String :=
  match order_blocks.head? with
  | none => "No clear order blocks identified. Wait for structure formation."
  | some nearest =>
    let nty := jGetStr nearest "type" ""
    let nlvl := pyFloatStr (jGetNum nearest "price_level" 0)
    if jGetNum nearest "distance_pips" 0 < 10 then
      "Price near " ++ nty ++ " zone at " ++ nlvl ++ " - watch for reaction"
    else if nty = "demand" ∧ trend = "bullish" then
      "Bullish trend with demand zone at " ++ nlvl ++ " - wait for pullback"
    else if nty = "supply" ∧ trend = "bearish" then
      "Bearish trend with supply zone at " ++ nlvl ++ " - wait for retest"
    else
      "Monitor " ++ nty ++ " zone at " ++ nlvl ++ " for potential reversal"

/-- `identify_order_blocks(data)`: institutional demand/supply zones. -/
def identify_order_blocks (rnd : ℕ → ℚ) (rint : ℕ → ℕ)
    (data : MarketSnapshot) : JVal :=
  let candles := data.candles
  let current_price := data.current_price
  let trend := data.indicators.trend
  if candles.length < 50 then
    .obj [("order_blocks", .arr []), ("message", .str "Insufficient data")]
  else
    let num_blocks := pyRandint 2 4 (rint 0)
    let order_blocks := (List.range num_blocks).filterMap (fun i =>
      let block_type :=
        if trend = "bullish" then
          if rnd (10 * i + 1) > 0.3 then "demand" else "supply"
        else
          if rnd (10 * i + 1) > 0.3 then "supply" else "demand"
      let lookback_start : ℤ := 10 + i * 15
      let lookback_end : ℤ := lookback_start + 15
      let relevant_candles :=
        if lookback_start < (candles.length : ℤ) then
          pySlice candles (-lookback_end) (-lookback_start)
        else pySliceFrom candles (-lookback_end)
      if relevant_candles.isEmpty then none
      else
        let base_candle := relevant_candles.getD
          (pyRandint 0 (relevant_candles.length - 1) (rint (10 * i + 2)))
          dummyCandle
        let zones :=
          if block_type = "demand" then
            (base_candle.high, base_candle.low * 0.9995)
          else
            (base_candle.high * 1.0005, base_candle.low)
        let zone_high := zones.1
        let zone_low := zones.2
        let price_level := pyRound ((zone_high + zone_low) / 2) 4
        let strength_score := pyRandint 60 95 (rint (10 * i + 3))
        let distance_pips := |current_price - price_level| * 10000
        let is_tested := rnd (10 * i + 4) > 0.6
        let validity := if !is_tested then "untested" else "tested_once"
        let candle_index := candles.indexOf base_candle
        let age_candles := candles.length - candle_index
        let freshness := if age_candles < 20 then "fresh" else "aged"
        some (JVal.obj
          [("type", .str block_type),
           ("zone_high", .num (pyRound zone_high 4)),
           ("zone_low", .num (pyRound zone_low 4)),
           ("price_level", .num price_level),
           ("strength", .num (strength_score : ℕ)),
           ("validity", .str validity),
           ("freshness", .str freshness),
           ("distance_pips", .num (pyRound distance_pips 1)),
           ("timestamp", .num base_candle.timestamp),
           ("interpretation", .str (pyCapitalize block_type ++
             " zone - expect " ++
             (if block_type = "demand" then "buying" else "selling") ++
             " pressure")),
           ("trading_setup", generate_order_block_setup block_type zone_high
             zone_low current_price)]))
    let sorted_blocks := sortByNumKey "distance_pips" order_blocks
    .obj [("order_blocks", .arr sorted_blocks),
          ("total_identified", .num (sorted_blocks.length : ℕ)),
          ("current_price", .num current_price),
          ("nearest_block", match sorted_blocks.head? with
            | some b => b
            | none => .null),
          ("recommendation", .str (generate_ob_recommendation sorted_blocks
            current_price trend))]

/-- `identify_fair_value_gaps(data)`: 3-candle imbalance (FVG) detection. -/
def identify_fair_value_gaps (rnd : ℕ → ℚ) (rint : ℕ → ℕ)
    (data : MarketSnapshot) : JVal :=
  let candles := data.candles
  let current_price := data.current_price
  if candles.length < 20 then
    .obj [("fvgs", .arr []), ("message", .str "Insufficient data")]
  else
    let n : ℤ := candles.length
    let fvgs := ((rangeDown (n - 3) (n - 30)).takeWhile
      (fun i => decide (2 ≤ i))).filterMap (fun i =>
      let candle1 := pyIndex candles (i - 2) dummyCandle
      let candle2 := pyIndex candles (i - 1) dummyCandle
      let candle3 := pyIndex candles i dummyCandle
      let gap :=
        if candle1.high < candle3.low ∧ rnd (2 * i.toNat) > 0.7 then
          some (candle3.low, candle1.high, "bullish")
        else if candle1.low > candle3.high ∧ rnd (2 * i.toNat + 1) > 0.7 then
          some (candle1.low, candle3.high, "bearish")
        else none
      match gap with
      | none => none
      | some (gap_high, gap_low, gap_type) =>
        let gap_size_pips := (gap_high - gap_low) * 10000
        if gap_size_pips > 3 then
          let distance_pips := |current_price - (gap_high + gap_low) / 2| * 10000
          let fill_percentage := pyRandint 0 100 (rint i.toNat)
          let remaining := 100 - fill_percentage
          some (JVal.obj
            [("type", .str gap_type),
             ("gap_high", .num (pyRound gap_high 4)),
             ("gap_low", .num (pyRound gap_low 4)),
             ("gap_midpoint", .num (pyRound ((gap_high + gap_low) / 2) 4)),
             ("size_pips", .num (pyRound gap_size_pips 1)),
             ("fill_percentage", .num (fill_percentage : ℕ)),
             ("distance_pips", .num (pyRound distance_pips 1)),
             ("timestamp", .num candle2.timestamp),
             ("interpretation", .str (pyCapitalize gap_type ++
               " FVG - expect " ++ toString remaining ++ "% fill remaining")),
             ("trading_use", .str ("Retest zone for " ++ gap_type ++
               " continuation"))])
        else none)
    let sorted_fvgs := sortByNumKey "distance_pips" fvgs
    .obj [("fvgs", .arr (sorted_fvgs.take 4)),
          ("total_fvgs", .num (sorted_fvgs.length : ℕ)),
          ("nearest_fvg", match sorted_fvgs.head? with
            | some f => f
            | none => .null),
          ("recommendation", .str
            "FVGs often act as support/resistance and fill zones")]

/-- `identify_breaker_blocks(data)`: failed order blocks that flip
polarity. -/
def identify_breaker_blocks (rint : ℕ → ℕ) (data : MarketSnapshot) : JVal :=
  let candles := data.candles
  if candles.length < 40 then
    .obj [("breaker_blocks", .arr []), ("message", .str "Insufficient data")]
  else
    let num_breakers := pyRandint 0 2 (rint 0)
    let breakers := (List.range num_breakers).filterMap (fun i =>
      let original_type := pyChoice ["demand", "supply"] "demand"
        (rint (10 * i + 1))
      let breaker_type := if original_type = "demand" then "supply" else "demand"
      let lookback : ℤ := 20 + i * 15
      let relevant_candles := pySlice candles (-lookback) (-lookback + 10)
      if relevant_candles.isEmpty then none
      else
        let base_candle := relevant_candles.getD
          (pyRandint 0 (relevant_candles.length - 1) (rint (10 * i + 2)))
          dummyCandle
        let zone_high := pyRound base_candle.high 4
        let zone_low := pyRound base_candle.low 4
        let strength := pyRandint 70 90 (rint (10 * i + 3))
        some (JVal.obj
          [("original_type", .str original_type),
           ("current_type", .str breaker_type),
           ("zone_high", .num zone_high),
           ("zone_low", .num zone_low),
           ("flip_timestamp", .num base_candle.timestamp),
           ("strength", .num (strength : ℕ)),
           ("interpretation", .str ("Failed " ++ original_type ++
             " OB flipped to " ++ breaker_type ++ " breaker")),
           ("trading_implication", .str ("Expect strong " ++ breaker_type ++
             " reaction at zone"))]))
    .obj [("breaker_blocks", .arr breakers),
          ("total_breakers", .num (breakers.length : ℕ)),
          ("concept", .str
            "Breaker blocks show failed institutional levels that reverse polarity")]

/-- `calculate_premium_discount_zones(data)`: equilibrium-based
premium/discount zoning (deterministic). -/
def calculate_premium_discount_zones (data : MarketSnapshot) : JVal :=
  let candles := data.candles
  let current_price := data.current_price
  if candles.length < 50 then
    .obj [("zones", .obj []), ("message", .str "Insufficient data")]
  else
    let recent_candles := pySliceFrom candles (-50)
    let swing_high := pyMaxQ (recent_candles.map (·.high))
    let swing_low := pyMinQ (recent_candles.map (·.low))
    let range_size := swing_high - swing_low
    let equilibrium := (swing_high + swing_low) / 2
    let equilibrium_r := pyRound equilibrium 4
    let premium_lower := pyRound (equilibrium + range_size * 0.236) 4
    let discount_upper := pyRound (equilibrium - range_size * 0.236) 4
    let pos :=
      if current_price > equilibrium_r then
        if current_price > premium_lower then
          ("premium", "Price in premium - favor sells")
        else
          ("equilibrium", "Price at fair value - watch for direction")
      else
        if current_price < discount_upper then
          ("discount", "Price in discount - favor buys")
        else
          ("equilibrium", "Price at fair value - watch for direction")
    let current_position := pos.1
    let zones := JVal.obj
      [("swing_high", .num (pyRound swing_high 4)),
       ("premium_zone", .obj
         [("upper", .num (pyRound swing_high 4)),
          ("lower", .num premium_lower),
          ("strength", .str "strong_resistance")]),
       ("equilibrium", .num equilibrium_r),
       ("discount_zone", .obj
         [("upper", .num discount_upper),
          ("lower", .num (pyRound swing_low 4)),
          ("strength", .str "strong_support")]),
       ("swing_low", .num (pyRound swing_low 4)),
       ("current_price", .num current_price),
       ("current_position", .str current_position),
       ("interpretation", .str pos.2)]
    .obj [("zones", zones),
          ("range_size_pips", .num (pyRound (range_size * 10000) 1)),
          ("trading_bias", .str (if current_position = "discount" then "Bullish"
            else if current_position = "premium" then "Bearish"
            else "Neutral"))]

/-- `detect_imbalances(data)`: rapid-move gap detection. -/
def detect_imbalances (rnd : ℕ → ℚ) (rint : ℕ → ℕ)
    (data : MarketSnapshot) : JVal :=
  let candles := data.candles
  if candles.length < 25 then
    .obj [("imbalances", .arr []), ("message", .str "Insufficient data")]
  else
    let n : ℤ := candles.length
    let imbalances := ((rangeDown (n - 2) (n - 25)).takeWhile
      (fun i => decide (1 ≤ i))).filterMap (fun i =>
      if rnd i.toNat > 0.8 then
        let prev_candle := pyIndex candles (i - 1) dummyCandle
        let curr_candle := pyIndex candles i dummyCandle
        let imb :=
          if curr_candle.close > prev_candle.high then
            some ("bullish", curr_candle.low, prev_candle.high)
          else if curr_candle.close < prev_candle.low then
            some ("bearish", prev_candle.low, curr_candle.high)
          else none
        match imb with
        | none => none
        | some (imbalance_type, imbalance_high, imbalance_low) =>
          let imbalance_size := |imbalance_high - imbalance_low| * 10000
          if imbalance_size > 2 then
            some (JVal.obj
              [("type", .str imbalance_type),
               ("imbalance_high", .num (pyRound imbalance_high 4)),
               ("imbalance_low", .num (pyRound imbalance_low 4)),
               ("size_pips", .num (pyRound imbalance_size 1)),
               ("timestamp", .num curr_candle.timestamp),
               ("rebalance_probability",
                .num (pyRandint 60 85 (rint i.toNat) : ℕ)),
               ("interpretation", .str (pyCapitalize imbalance_type ++
                 " imbalance - likely rebalance zone"))])
          else none
      else none)
    .obj [("imbalances", .arr (imbalances.take 3)),
          ("total_imbalances", .num (imbalances.length : ℕ)),
          ("recommendation", .str
            "Imbalances often attract price for rebalancing")]

/-- `detect_inefficiencies(data)`: poorly-traded zone detection. -/
def detect_inefficiencies (rnd : ℕ → ℚ) (rint : ℕ → ℕ)
    (data : MarketSnapshot) : JVal :=
  let candles := data.candles
  if candles.length < 30 then
    .obj [("inefficiencies", .arr []), ("message", .str "Insufficient data")]
  else
    let n : ℤ := candles.length
    let inefficiencies := ((rangeDown (n - 5) (n - 30)).takeWhile
      (fun i => decide (5 ≤ i))).filterMap (fun i =>
      if rnd i.toNat > 0.85 then
        let window := pySlice candles i (i + 5)
        let zone_high := pyMaxQ (window.map (·.high))
        let zone_low := pyMinQ (window.map (·.low))
        let inefficiency_score := pyRandint 65 90 (rint i.toNat)
        some (JVal.obj
          [("zone_high", .num (pyRound zone_high 4)),
           ("zone_low", .num (pyRound zone_low 4)),
           ("zone_midpoint", .num (pyRound ((zone_high + zone_low) / 2) 4)),
           ("timestamp_start", .num (pyIndex window 0 dummyCandle).timestamp),
           ("timestamp_end", .num (pyIndex window (-1) dummyCandle).timestamp),
           ("inefficiency_score", .num (inefficiency_score : ℕ)),
           ("interpretation", .str
             "Inefficient zone - expect revisit and better price discovery")])
      else none)
    .obj [("inefficiencies", .arr (inefficiencies.take 2)),
          ("total_inefficiencies", .num (inefficiencies.length : ℕ)),
          ("concept", .str
            "Inefficient zones show poor trading and often get revisited")]

/-- The value-area accumulation loop of `analyze_volume_profile`: walk the
volume-sorted `(index, volume)` pairs, collecting indices until the running
volume reaches the threshold (70% of total), including the crossing entry. -/
def value_area_collect (threshold : ℚ) : List (ℕ × ℚ) → ℚ → List ℕ
  | [], _ => []
  | (idx, vol) :: rest, acc =>
    let acc2 := acc + vol
    idx :: (if acc2 ≥ threshold then [] else value_area_collect threshold rest acc2)

/-- `analyze_volume_profile(data)`: POC and value area (deterministic). -/
def analyze_volume_profile (data : MarketSnapshot) : JVal :=
  let candles := data.candles
  let current_price := data.current_price
  if candles.length < 40 then
    .obj [("profile", .obj []), ("message", .str "Insufficient data")]
  else
    let recent_candles := pySliceFrom candles (-40)
    let volumes := recent_candles.map (·.volume)
    let total_volume := volumes.sum
    let poc_index := volumes.indexOf (pyMaxQ volumes)
    let poc_candle := pyIndex recent_candles (poc_index : ℤ) dummyCandle
    let poc_price := pyRound ((poc_candle.high + poc_candle.low) / 2) 4
    let sorted_volumes := pySort (fun a b => decide (b.2 < a.2)) volumes.enum
    let value_area_indices := value_area_collect (total_volume * 0.7)
      sorted_volumes 0
    let value_area_high := pyMaxQ (value_area_indices.map (fun i =>
      (pyIndex recent_candles (i : ℤ) dummyCandle).high))
    let value_area_low := pyMinQ (value_area_indices.map (fun i =>
      (pyIndex recent_candles (i : ℤ) dummyCandle).low))
    .obj [("profile", .obj
            [("poc", .num poc_price),
             ("poc_volume", .num (pyMaxQ volumes)),
             ("value_area_high", .num (pyRound value_area_high 4)),
             ("value_area_low", .num (pyRound value_area_low 4)),
             ("current_price", .num current_price),
             ("position_relative_to_poc", .str
               (if current_price > poc_price then "above" else "below"))]),
          ("interpretation", .str ("POC at " ++ pyFloatStr poc_price ++
            " - strong " ++
            (if current_price > poc_price then "support" else "resistance"))),
          ("trading_implication", .str
            "Price tends to gravitate toward high volume areas (POC)")]

/-- `detect_smart_money_divergence(data)`: price vs institutional
participation divergence. -/
def detect_smart_money_divergence (rnd : ℕ → ℚ) (rint : ℕ → ℕ)
    (data : MarketSnapshot) : JVal :=
  let candles := data.candles
  if candles.length < 40 then
    .obj [("divergence", .null), ("message", .str "Insufficient data")]
  else
    if rnd 0 > 0.6 then
      let divergence_type := pyChoice
        ["bullish", "bearish", "hidden_bullish", "hidden_bearish"]
        "bullish" (rint 0)
      let isd :=
        if pyIn "bullish" divergence_type then
          ("Price making lower lows but smart money accumulating",
           "potential_reversal_up")
        else
          ("Price making higher highs but smart money distributing",
           "potential_reversal_down")
      let strength := pyRandint 65 90 (rint 1)
      let signal := isd.2
      let confirmation_needed := pyChoice [true, false] true (rint 2)
      .obj [("divergence", .obj
              [("type", .str divergence_type),
               ("strength", .num (strength : ℕ)),
               ("signal", .str signal),
               ("interpretation", .str isd.1),
               ("confirmation_needed", .bool confirmation_needed)]),
            ("recommendation", .str ("Watch for " ++
              (signal.replace "_" " ") ++ " confirmation"))]
    else
      .obj [("divergence", .null),
            ("reason", .str "No smart money divergence detected")]

/-- `analyze_order_flow(data)`: buying vs selling pressure
(deterministic). -/
def analyze_order_flow (data : MarketSnapshot) : JVal :=
  let candles := data.candles
  if candles.length < 20 then
    .obj [("flow", .obj []), ("message", .str "Insufficient data")]
  else
    let recent_candles := pySliceFrom candles (-20)
    let buying_pressure :=
      (recent_candles.filter (fun c => decide (c.close > c.open_))).length
    let selling_pressure :=
      (recent_candles.filter (fun c => decide (c.close < c.open_))).length
    let total_candles := recent_candles.length
    let buy_percentage := (buying_pressure : ℚ) / (total_candles : ℚ) * 100
    let sell_percentage := (selling_pressure : ℚ) / (total_candles : ℚ) * 100
    let fb :=
      if buy_percentage > 65 then ("strong_buying", "bullish")
      else if sell_percentage > 65 then ("strong_selling", "bearish")
      else if buy_percentage > 55 then ("moderate_buying", "slightly_bullish")
      else if sell_percentage > 55 then ("moderate_selling", "slightly_bearish")
      else ("balanced", "neutral")
    let dominant_flow := fb.1
    let bias := fb.2
    let delta := (buying_pressure : ℤ) - (selling_pressure : ℤ)
    .obj [("flow", .obj
            [("buying_pressure", .num (pyRound buy_percentage 1)),
             ("selling_pressure", .num (pyRound sell_percentage 1)),
             ("delta", .num (delta : ℚ)),
             ("dominant_flow", .str dominant_flow),
             ("bias", .str bias)]),
          ("interpretation", .str ("Order flow shows " ++
            (dominant_flow.replace "_" " ") ++ " - " ++ bias ++ " bias")),
          ("trading_implication", .str ("Favor " ++ bias ++
            " setups in alignment with order flow"))]

/-- `analyze_higher_timeframe_structure(pair, current_timeframe)`: mocked HTF
context. -/
def analyze_higher_timeframe_structure (rnd : ℕ → ℚ) (rint : ℕ → ℕ)
    (pair current_timeframe : String) : JVal :=
  let htf := (([("1m", "5m"), ("5m", "15m"), ("15m", "1h"), ("30m", "4h"),
    ("1h", "4h"), ("4h", "1d"), ("1d", "1w")] :
      List (String × String)).lookup current_timeframe).getD "1d"
  let htf_trend := pyChoice ["bullish", "bearish", "ranging"] "bullish" (rint 0)
  let htf_structure_quality := pyRandint 65 95 (rint 1)
  let htf_bos_present := pyChoice [true, false] true (rint 2)
  let htf_choch_present :=
    if !htf_bos_present then pyChoice [true, false] true (rint 3) else false
  let key_support := pyRound (rnd 0) 4
  let key_resistance := pyRound (rnd 1) 4
  let alignment_with_ltf := pyChoice ["aligned", "conflicting", "neutral"]
    "aligned" (rint 4)
  .obj [("htf", .str htf),
        ("htf_trend", .str htf_trend),
        ("structure_quality", .num (htf_structure_quality : ℕ)),
        ("htf_bos", .bool htf_bos_present),
        ("htf_choch", .bool htf_choch_present),
        ("key_support", .num key_support),
        ("key_resistance", .num key_resistance),
        ("alignment", .str alignment_with_ltf),
        ("interpretation", .str ("HTF (" ++ htf ++ ") shows " ++ htf_trend ++
          " bias with " ++ toString htf_structure_quality ++
          "% structure quality")),
        ("recommendation", .str
          ((if alignment_with_ltf = "aligned" then "Trade with" else "Caution:")
           ++ " HTF bias for best probability"))]

/-- `identify_confluences(pair, timeframe)`: mocked multi-factor confluence
zones. -/
def identify_confluences (rnd : ℕ → ℚ) (rint : ℕ → ℕ)
    (pair timeframe : String) : JVal :=
  let num_confluences := pyRandint 1 2 (rint 0)
  let confluences := (List.range num_confluences).map (fun i =>
    let confluence_price := pyRound (rnd i) 4
    let possible_factors :=
      ["order_block", "fvg", "liquidity_pool", "premium_zone",
       "discount_zone", "old_high", "old_low", "poc", "imbalance"]
    let num_factors := pyRandint 3 5 (rint (10 * i + 1))
    let factors := pySample (fun s => rint (10 * i + 2 + s)) num_factors 0
      possible_factors
    let confluence_strength := factors.length * 15 + pyRandint 10 25
      (rint (10 * i + 8))
    let setup_type :=
      if factors.contains "discount_zone" || factors.contains "order_block"
      then "buy" else "sell"
    let nf := factors.length
    JVal.obj
      [("price_level", .num confluence_price),
       ("factors", .arr (factors.map .str)),
       ("confluence_strength", .num (min 100 confluence_strength : ℕ)),
       ("setup_type", .str setup_type),
       ("interpretation", .str (toString nf ++ " SMC factors align at " ++
         pyFloatStr confluence_price)),
       ("recommendation", .str ("High-probability " ++ setup_type ++
         " zone - wait for confirmation"))])
  .obj [("confluences", .arr confluences),
        ("total_confluences", .num (confluences.length : ℕ)),
        ("concept", .str ("Confluences occur when multiple SMC factors align,"
          ++ " creating high-probability zones"))]

/-- `analyze_session_characteristics(data)`: session behavior by current UTC
hour (the `data` parameter is unused by the source body too). -/
def analyze_session_characteristics (hour : ℕ) (data : MarketSnapshot) : JVal :=
  let sc :=
    if hour < 8 then
      ("asian",
       [("volatility", JVal.str "low"),
        ("typical_range_pips", JVal.str "20-40"),
        ("best_strategy", JVal.str "range_trading"),
        ("liquidity", JVal.str "low")], "range_trading")
    else if hour < 16 then
      ("london",
       [("volatility", JVal.str "high"),
        ("typical_range_pips", JVal.str "60-100"),
        ("best_strategy", JVal.str "breakout_continuation"),
        ("liquidity", JVal.str "high")], "breakout_continuation")
    else
      ("newyork",
       [("volatility", JVal.str "very_high"),
        ("typical_range_pips", JVal.str "80-120"),
        ("best_strategy", JVal.str "trend_following"),
        ("liquidity", JVal.str "very_high")], "trend_following")
  let session := sc.1
  let overlap := 12 ≤ hour ∧ hour < 16
  let characteristics := sc.2.1 ++
    (if overlap then
      [("note", JVal.str "High volatility overlap - expect big moves")]
    else [])
  let session_overlap : JVal :=
    if overlap then .str "london_newyork" else .null
  .obj [("current_session", .str session),
        ("characteristics", .obj characteristics),
        ("session_overlap", session_overlap),
        ("recommendation", .str ("Trade " ++ sc.2.2 ++ " during " ++ session ++
          " session"))]

/-- `detect_news_impact_zones(pair)`: mocked news reaction zones.  `now` is
the `datetime.now()` instant in minutes; `timedelta(hours=h)` is `60 * h`. -/
def detect_news_impact_zones (rnd : ℕ → ℚ) (rint : ℕ → ℕ) (now : ℚ)
    (pair : String) : JVal :=
  let num_zones := pyRandint 0 2 (rint 0)
  let news_zones := (List.range num_zones).map (fun i =>
    let event_time := now - 60 * (pyRandint 1 48 (rint (10 * i + 1)) : ℚ)
    let impact_level := pyRound (rnd i) 4
    let news_type := pyChoice ["central_bank", "employment", "inflation", "gdp"]
      "central_bank" (rint (10 * i + 2))
    let reaction := pyChoice ["spike_up", "spike_down", "range_expansion"]
      "spike_up" (rint (10 * i + 3))
    JVal.obj
      [("event_time", .num event_time),
       ("news_type", .str news_type),
       ("impact_level", .num impact_level),
       ("reaction", .str reaction),
       ("interpretation", .str (pyTitle (news_type.replace "_" " ") ++
         " news caused " ++ (reaction.replace "_" " "))),
       ("trading_note", .str
         "News reaction levels often become support/resistance")])
  .obj [("news_zones", .arr news_zones),
        ("total_zones", .num (news_zones.length : ℕ)),
        ("recommendation", .str "Be cautious around news impact levels")]

/-- `identify_manipulation_patterns(data)`: stop hunts, traps, false
breakouts. -/
def identify_manipulation_patterns (rnd : ℕ → ℚ) (rint : ℕ → ℕ)
    (data : MarketSnapshot) : JVal :=
  let candles := data.candles
  if candles.length < 30 then
    .obj [("manipulations", .arr []), ("message", .str "Insufficient data")]
  else
    let manipulations :=
      if rnd 0 > 0.6 then
        let manipulation_type := pyChoice
          ["bull_trap", "bear_trap", "stop_hunt", "false_breakout",
           "wyckoff_spring", "wyckoff_upthrust"] "bull_trap" (rint 0)
        let recent_candles := pySliceFrom candles (-15)
        let manipulation_candle := recent_candles.getD
          (pyRandint 0 (recent_candles.length - 1) (rint 1)) dummyCandle
        let fdl :=
          if pyIn "bull" manipulation_type ∨ pyIn "spring" manipulation_type
          then ("down", "up", manipulation_candle.low)
          else ("up", "down", manipulation_candle.high)
        let fake_move_direction := fdl.1
        let true_direction := fdl.2.1
        let level := fdl.2.2
        let confidence := pyRandint 70 90 (rint 2)
        [JVal.obj
          [("type", .str manipulation_type),
           ("manipulation_level", .num (pyRound level 4)),
           ("fake_move", .str fake_move_direction),
           ("true_direction", .str true_direction),
           ("confidence", .num (confidence : ℕ)),
           ("timestamp", .num manipulation_candle.timestamp),
           ("interpretation", .str (pyTitle (manipulation_type.replace "_" " ")
             ++ " - expect move " ++ true_direction)),
           ("trading_implication", .str ("Wait for price to reverse " ++
             true_direction ++ " from " ++ pyFloatStr (pyRound level 4)))]]
      else []
    .obj [("manipulations", .arr manipulations),
          ("total_manipulations", .num (manipulations.length : ℕ)),
          ("concept", .str
            "Smart money manipulates retail stops before true directional moves")]

/-- Models `float(str(current_price)[:4])` of
`calculate_institutional_levels`: the numeric value of the first four
characters of the decimal rendering of the price, for prices in `[0, 10000)`
with a terminating (non-scientific) rendering — the range produced by every
data path of the repository (prices rounded to 4 decimals, between 0.63 and
195). -/
def float_str_take4 (q : ℚ) : ℚ :=
  if q < 10 then ((q * 100).floor : ℚ) / 100
  else if q < 100 then ((q * 10).floor : ℚ) / 10
  else (q.floor : ℚ)

/-- `calculate_institutional_levels(data)`: round-number and psychological
levels around the current price.  Reads only `current_price` (no candle
minimum). -/
def calculate_institutional_levels (rint : ℕ → ℕ) (data : MarketSnapshot) :
    JVal :=
  let current_price := data.current_price
  let base_price := float_str_take4 current_price
  let major_levels := (List.range 5).filterMap (fun (k : ℕ) =>
    let i : ℤ := (k : ℤ) - 2
    let level := pyRound (base_price + i * 0.01) 4
    if level > 0 then
      some (JVal.obj
        [("level", .num level),
         ("type", .str "major_round_number"),
         ("strength", .num (pyRandint 75 95 (rint k) : ℕ)),
         ("distance_pips", .num (pyRound (|current_price - level| * 10000) 1)),
         ("psychological_impact", .str "high")])
    else none)
  let half_levels := (List.range 5).filterMap (fun (k : ℕ) =>
    let i : ℤ := (k : ℤ) - 2
    let level := pyRound (base_price + i * 0.01 + 0.005) 4
    if level > 0 then
      some (JVal.obj
        [("level", .num level),
         ("type", .str "half_round_number"),
         ("strength", .num (pyRandint 60 80 (rint (10 + k)) : ℕ)),
         ("distance_pips", .num (pyRound (|current_price - level| * 10000) 1)),
         ("psychological_impact", .str "medium")])
    else none)
  let institutional_levels := sortByNumKey "distance_pips"
    (major_levels ++ half_levels)
  .obj [("institutional_levels", .arr (institutional_levels.take 5)),
        ("nearest_level", match institutional_levels.head? with
          | some l => l
          | none => .null),
        ("recommendation", .str
          "Institutions cluster orders at round numbers - expect reactions")]

/-- `detect_wyckoff_phases(data)`: accumulation/distribution phase
detection. -/
def detect_wyckoff_phases (rnd : ℕ → ℚ) (rint : ℕ → ℕ)
    (data : MarketSnapshot) : JVal :=
  let candles := data.candles
  if candles.length < 50 then
    .obj [("phase", .null), ("message", .str "Insufficient data")]
  else
    if rnd 0 > 0.5 then
      let phase_type := pyChoice
        ["accumulation", "markup", "distribution", "markdown"]
        "accumulation" (rint 0)
      let sub_phase : Option String :=
        if phase_type = "accumulation" then
          some (pyChoice ["Phase A", "Phase B", "Phase C - Spring", "Phase D",
            "Phase E"] "Phase A" (rint 1))
        else if phase_type = "distribution" then
          some (pyChoice ["Phase A", "Phase B", "Phase C - Upthrust", "Phase D",
            "Phase E"] "Phase A" (rint 1))
        else none
      let phase_confidence := pyRandint 65 90 (rint 2)
      let expected_move :=
        if phase_type = "accumulation" ∨ phase_type = "markup" then "bullish"
        else "bearish"
      let sub_phase_jval : JVal := match sub_phase with
        | some s => .str s
        | none => .null
      let sub_phase_str := match sub_phase with
        | some s => s
        | none => "None"
      .obj [("phase", .obj
              [("type", .str phase_type),
               ("sub_phase", sub_phase_jval),
               ("confidence", .num (phase_confidence : ℕ)),
               ("expected_move", .str expected_move)]),
            ("interpretation", .str ("Wyckoff " ++ phase_type ++
              " phase detected - " ++ sub_phase_str)),
            ("trading_implication", .str ("Position for " ++ expected_move ++
              " move from " ++ phase_type))]
    else
      .obj [("phase", .null),
            ("reason", .str "No clear Wyckoff phase identified")]

/-- `identify_turtle_soup_setups(data)`: false-breakout reversal setups. -/
def identify_turtle_soup_setups (rnd : ℕ → ℚ) (rint : ℕ → ℕ)
    (data : MarketSnapshot) : JVal :=
  let candles := data.candles
  if candles.length < 30 then
    .obj [("setups", .arr []), ("message", .str "Insufficient data")]
  else
    let setups :=
      if rnd 0 > 0.7 then
        let setup_type := pyChoice ["long", "short"] "long" (rint 0)
        let recent_candles := pySliceFrom candles (-20)
        let levels :=
          if setup_type = "long" then
            let false_break_level :=
              pyMinQ ((pySliceTo recent_candles 10).map (·.low))
            let entry_level := pyRound (false_break_level * 1.0005) 4
            let stop_level := pyRound (false_break_level * 0.9995) 4
            let target_level :=
              pyRound (entry_level + (entry_level - stop_level) * 3) 4
            (false_break_level, entry_level, stop_level, target_level)
          else
            let false_break_level :=
              pyMaxQ ((pySliceTo recent_candles 10).map (·.high))
            let entry_level := pyRound (false_break_level * 0.9995) 4
            let stop_level := pyRound (false_break_level * 1.0005) 4
            let target_level :=
              pyRound (entry_level - (stop_level - entry_level) * 3) 4
            (false_break_level, entry_level, stop_level, target_level)
        let setup_quality := pyRandint 70 90 (rint 1)
        [JVal.obj
          [("type", .str setup_type),
           ("false_break_level", .num (pyRound levels.1 4)),
           ("entry", .num levels.2.1),
           ("stop_loss", .num levels.2.2.1),
           ("target", .num levels.2.2.2),
           ("quality", .num (setup_quality : ℕ)),
           ("interpretation", .str ("Turtle Soup " ++ setup_type ++
             " - false breakout reversal")),
           ("risk_reward", .num 3.0)]]
      else []
    .obj [("setups", .arr setups),
          ("total_setups", .num (setups.length : ℕ)),
          ("concept", .str
            "Turtle Soup exploits false breakouts when stops are hunted")]

end Smc

/-! ## Application orchestration (`app.py`)

The orchestration loop `run_analysis` drives a bounded multi-turn exchange
with the LLM.  The Groq chat-completion call of iteration `i` is modeled by
an oracle `ℕ → Except String LLMResponse` indexed by the (1-based) iteration
counter; the `.error` case models a raised exception on the LLM-call step.
`json.loads` of the tool-call arguments is modeled by tool calls carrying
already-parsed argument mappings, and the `json.dumps` of a tool result by
keeping the result structured in the tool message. -/

/-- The `SYSTEM_PROMPT` of `app.py`. -/
def SYSTEM_PROMPT : String :=
  "You are an elite forex analyst and expert in Smart Money Concepts (SMC) " ++
  "with access to a comprehensive suite of analysis tools.\n" ++
  "Your role is to analyze forex markets using institutional trading " ++
  "concepts and provide actionable trading recommendations.\n\n" ++
  "ANALYSIS WORKFLOW:\n" ++
  "1. ALWAYS call get_forex_data() FIRST to retrieve market data for the " ++
  "requested pair and timeframe\n" ++
  "2. Based on the user\x27s query and market conditions, intelligently " ++
  "select from these analysis functions:\n\n" ++
  "MARKET STRUCTURE ANALYSIS / LIQUIDITY ANALYSIS / ORDER BLOCKS & ZONES / " ++
  "PREMIUM-DISCOUNT / IMBALANCES / VOLUME & FLOW / MULTI-TIMEFRAME / " ++
  "SESSION & TIME / ADVANCED CONCEPTS: the 23 analysis functions with " ++
  "one-line summaries.\n\n" ++
  "SMART MONEY CONCEPTS PRINCIPLES, ANALYSIS APPROACH (Don\x27t call every " ++
  "function - be selective based on the query), and the OUTPUT FORMAT " ++
  "(Market Context, Key SMC Findings, Trade Setup, Reasoning, Risk Factors)."

/-- The keyword-argument mapping of one tool call (the result of
`json.loads(tool_call.function.arguments)`). -/
abbrev Args : Type := List (String × JVal)

/-- One callable of the registry, invoked as `function(**function_args)`:
the `.error` case models a raised Python exception (including
keyword-binding `TypeError`s for malformed argument mappings). -/
abbrev Capability : Type := Args → Except String JVal

/-- String-argument extraction; a non-string where the capability needs a
string surfaces as an exception inside the capability, as in Python. -/
def asString (fname : String) (v : JVal) : Except String String :=
  match v with
  | .str s => .ok s
  | _ => .error ("TypeError: " ++ fname ++ " expected a string argument")

/-- Decode one candle dict; a malformed candle raises (`KeyError`) when the
capability touches it, modeled by an eager decode error. -/
def decodeCandle (v : JVal) : Except String Candle :=
  match jGet v "timestamp", jGet v "open", jGet v "high", jGet v "low",
    jGet v "close", jGet v "volume" with
  | some (.num t), some (.num o), some (.num h), some (.num l),
    some (.num c), some (.num vol) =>
    .ok { timestamp := t, open_ := o, high := h, low := l, close := c,
          volume := vol }
  | _, _, _, _, _, _ => .error "KeyError: malformed candle"

/-- The candles field with the `.get` default `[]` when the key is absent. -/
def decodeCandles (v : Option JVal) : Except String (List Candle) :=
  match v with
  | some (.arr items) => items.mapM decodeCandle
  | some _ => .error "TypeError: candles is not a list"
  | none => .ok []

/-- Decode a `data` argument into a snapshot.  The defaults are exactly the
`.get` fallbacks the capability bodies use (`current_price` 0, `candles`
`[]`, `trend` neutral, `rsi` 50); fields the capabilities never read
decode with neutral defaults.  A non-dict raises (`AttributeError`). -/
def decodeSnapshot (v : JVal) : Except String MarketSnapshot :=
  match v with
  | .obj _ => do
    let candles ← decodeCandles (jGet v "candles")
    let ind := (jGet v "indicators").getD (.obj [])
    let ctx := (jGet v "market_context").getD (.obj [])
    let md := (jGet v "metadata").getD (.obj [])
    pure { pair := jGetStr v "pair" "",
           timeframe := jGetStr v "timeframe" "",
           current_price := jGetNum v "current_price" 0,
           candles := candles,
           indicators :=
             { rsi := jGetNum ind "rsi" 50,
               atr := jGetNum ind "atr" 0,
               trend := jGetStr ind "trend" "neutral",
               support := jGetNum ind "support" 0,
               resistance := jGetNum ind "resistance" 0 },
           market_context :=
             { volatility := jGetStr ctx "volatility" "",
               session := jGetStr ctx "session" "",
               momentum := jGetStr ctx "momentum" "" },
           metadata :=
             { data_points := 0, timestamp := jGetNum md "timestamp" 0,
               source := jGetStr md "source" "" } }
  | _ => .error "AttributeError: data is not a mapping"

/-- Encode one candle back to its dict shape. -/
def encodeCandle (c : Candle) : JVal :=
  .obj [("timestamp", .num c.timestamp), ("open", .num c.open_),
        ("high", .num c.high), ("low", .num c.low), ("close", .num c.close),
        ("volume", .num c.volume)]

/-- Encode a snapshot back to the dict returned by `get_forex_data`. -/
def encodeSnapshot (s : MarketSnapshot) : JVal :=
  .obj [("pair", .str s.pair),
        ("timeframe", .str s.timeframe),
        ("current_price", .num s.current_price),
        ("candles", .arr (s.candles.map encodeCandle)),
        ("indicators", .obj
          [("rsi", .num s.indicators.rsi), ("atr", .num s.indicators.atr),
           ("trend", .str s.indicators.trend),
           ("support", .num s.indicators.support),
           ("resistance", .num s.indicators.resistance)]),
        ("market_context", .obj
          [("volatility", .str s.market_context.volatility),
           ("session", .str s.market_context.session),
           ("momentum", .str s.market_context.momentum)]),
        ("metadata", .obj
          [("data_points", .num (s.metadata.data_points : ℕ)),
           ("timestamp", .num s.metadata.timestamp),
           ("source", .str s.metadata.source)])]

/-- Keyword binding of `f(**args)` against the declared parameter list:
like Python, an unexpected or missing keyword raises `TypeError`. -/
def bindKw (fname : String) (params : List String) (args : Args) :
    Except String (List JVal) :=
  if args.any (fun kv => !params.contains kv.1) then
    .error (fname ++ "() got an unexpected keyword argument")
  else
    params.mapM (fun p =>
      match args.lookup p with
      | some v => .ok v
      | none => .error (fname ++
          "() missing 1 required positional argument: " ++ p))

/-- Registry wrapper for a capability with signature `(data)`. -/
def wrapData (fname : String) (f : MarketSnapshot → JVal) : Capability :=
  fun args => do
    let vs ← bindKw fname ["data"] args
    let snap ← decodeSnapshot (vs.getD 0 .null)
    pure (f snap)

/-- Registry wrapper for `detect_bos(data, timeframe)`. -/
def wrapDataTf (fname : String) (f : MarketSnapshot → String → JVal) :
    Capability :=
  fun args => do
    let vs ← bindKw fname ["data", "timeframe"] args
    let snap ← decodeSnapshot (vs.getD 0 .null)
    let tf ← asString fname (vs.getD 1 .null)
    pure (f snap tf)

/-- Registry wrapper for a capability with two string parameters. -/
def wrapTwoStrings (fname p1 p2 : String) (f : String → String → JVal) :
    Capability :=
  fun args => do
    let vs ← bindKw fname [p1, p2] args
    let a ← asString fname (vs.getD 0 .null)
    let b ← asString fname (vs.getD 1 .null)
    pure (f a b)

/-- Registry wrapper for a capability with one string parameter. -/
def wrapOneString (fname p1 : String) (f : String → JVal) : Capability :=
  fun args => do
    let vs ← bindKw fname [p1] args
    let a ← asString fname (vs.getD 0 .null)
    pure (f a)

/-- Process-wide environment of the application: the random draw streams and
clock readings consumed by the mocked capabilities. -/
structure AppEnv where
  mock : PolygonMock.MockEnv
  rnd : ℕ → ℚ
  rint : ℕ → ℕ
  hour : ℕ
  now : ℚ

/-- `AVAILABLE_FUNCTIONS` of `app.py`: the registry mapping tool names to
callables (the app imports `get_forex_data` from `utils.polygon_mock`). -/
def AVAILABLE_FUNCTIONS (env : AppEnv) : List (String × Capability) :=
  [("get_forex_data", wrapTwoStrings "get_forex_data" "pair" "timeframe"
     (fun pair timeframe =>
       encodeSnapshot (PolygonMock.get_forex_data env.mock pair timeframe))),
   ("detect_bos", wrapDataTf "detect_bos" (Smc.detect_bos env.rnd env.rint)),
   ("detect_choch", wrapData "detect_choch" (Smc.detect_choch env.rnd env.rint)),
   ("detect_market_structure_break", wrapData "detect_market_structure_break"
     (Smc.detect_market_structure_break env.rnd env.rint)),
   ("detect_liquidity_sweep", wrapData "detect_liquidity_sweep"
     (Smc.detect_liquidity_sweep env.rnd env.rint)),
   ("identify_liquidity_pools", wrapData "identify_liquidity_pools"
     (Smc.identify_liquidity_pools env.rint)),
   ("detect_liquidity_void", wrapData "detect_liquidity_void"
     (Smc.detect_liquidity_void env.rnd env.rint)),
   ("identify_order_blocks", wrapData "identify_order_blocks"
     (Smc.identify_order_blocks env.rnd env.rint)),
   ("identify_fair_value_gaps", wrapData "identify_fair_value_gaps"
     (Smc.identify_fair_value_gaps env.rnd env.rint)),
   ("identify_breaker_blocks", wrapData "identify_breaker_blocks"
     (Smc.identify_breaker_blocks env.rint)),
   ("calculate_premium_discount_zones", wrapData
     "calculate_premium_discount_zones" Smc.calculate_premium_discount_zones),
   ("detect_imbalances", wrapData "detect_imbalances"
     (Smc.detect_imbalances env.rnd env.rint)),
   ("detect_inefficiencies", wrapData "detect_inefficiencies"
     (Smc.detect_inefficiencies env.rnd env.rint)),
   ("analyze_volume_profile", wrapData "analyze_volume_profile"
     Smc.analyze_volume_profile),
   ("detect_smart_money_divergence", wrapData "detect_smart_money_divergence"
     (Smc.detect_smart_money_divergence env.rnd env.rint)),
   ("analyze_order_flow", wrapData "analyze_order_flow"
     Smc.analyze_order_flow),
   ("analyze_higher_timeframe_structure", wrapTwoStrings
     "analyze_higher_timeframe_structure" "pair" "current_timeframe"
     (Smc.analyze_higher_timeframe_structure env.rnd env.rint)),
   ("identify_confluences", wrapTwoStrings "identify_confluences" "pair"
     "timeframe" (Smc.identify_confluences env.rnd env.rint)),
   ("analyze_session_characteristics", wrapData
     "analyze_session_characteristics"
     (Smc.analyze_session_characteristics env.hour)),
   ("detect_news_impact_zones", wrapOneString "detect_news_impact_zones"
     "pair" (Smc.detect_news_impact_zones env.rnd env.rint env.now)),
   ("identify_manipulation_patterns", wrapData "identify_manipulation_patterns"
     (Smc.identify_manipulation_patterns env.rnd env.rint)),
   ("calculate_institutional_levels", wrapData "calculate_institutional_levels"
     (Smc.calculate_institutional_levels env.rint)),
   ("detect_wyckoff_phases", wrapData "detect_wyckoff_phases"
     (Smc.detect_wyckoff_phases env.rnd env.rint)),
   ("identify_turtle_soup_setups", wrapData "identify_turtle_soup_setups"
     (Smc.identify_turtle_soup_setups env.rnd env.rint))]

/-- One parameter of a tool schema (an entry of `parameters.properties`). -/
structure ParamSpec where
  name : String
  type : String
  description : String
  enum : Option (List String)

/-- One entry of `FUNCTION_SCHEMAS` (the inner `function` dict; every entry
has the outer `type: function` wrapper and `parameters.type: object`). -/
structure FunctionSchema where
  name : String
  description : String
  parameters : List ParamSpec
  required : List String

/-- The repeated `data` parameter literal of the source schemas. -/
def dataParam : ParamSpec :=
  { name := "data", type := "object",
    description := "Market data from get_forex_data()", enum := none }

/-- `FUNCTION_SCHEMAS` of `app.py`: the tool schema catalog advertised to
the LLM. -/
def FUNCTION_SCHEMAS : List FunctionSchema :=
  [{ name := "get_forex_data",
     description := "Retrieves forex market data including OHLCV, indicators, and market context. ALWAYS call this first before any analysis.",
     parameters :=
       [{ name := "pair", type := "string",
          description := "Forex pair symbol (e.g., \x27EURUSD\x27, \x27GBPUSD\x27, \x27USDJPY\x27)",
          enum := none },
        { name := "timeframe", type := "string",
          description := "Chart timeframe",
          enum := some ["1m", "5m", "15m", "30m", "1h", "4h", "1d"] }],
     required := ["pair", "timeframe"] },
   { name := "detect_bos",
     description := "Detects Break of Structure - confirms trend direction and continuation signals. Shows when price breaks previous swing high/low.",
     parameters :=
       [dataParam,
        { name := "timeframe", type := "string",
          description := "Timeframe being analyzed", enum := none }],
     required := ["data", "timeframe"] },
   { name := "detect_choch",
     description := "Detects Change of Character - identifies potential trend reversals. Shows when trend structure fails.",
     parameters := [dataParam], required := ["data"] },
   { name := "detect_market_structure_break",
     description := "Detects Market Structure Break (MSB) - aggressive break of structure indicating strong momentum.",
     parameters := [dataParam], required := ["data"] },
   { name := "detect_liquidity_sweep",
     description := "Detects liquidity sweeps - when smart money hunts stops above/below key levels before reversing.",
     parameters := [dataParam], required := ["data"] },
   { name := "identify_liquidity_pools",
     description := "Identifies liquidity pools - areas with concentrated stop losses where price often reverses.",
     parameters := [dataParam], required := ["data"] },
   { name := "detect_liquidity_void",
     description := "Detects liquidity voids - price gaps with no trading activity that often get filled.",
     parameters := [dataParam], required := ["data"] },
   { name := "identify_order_blocks",
     description := "Identifies institutional order blocks (demand/supply zones) where institutions placed large orders.",
     parameters := [dataParam], required := ["data"] },
   { name := "identify_fair_value_gaps",
     description := "Identifies Fair Value Gaps (FVG) - 3-candle imbalances showing inefficient price movement.",
     parameters := [dataParam], required := ["data"] },
   { name := "identify_breaker_blocks",
     description := "Identifies breaker blocks - failed order blocks that flip polarity (demand becomes supply, vice versa).",
     parameters := [dataParam], required := ["data"] },
   { name := "calculate_premium_discount_zones",
     description := "Calculates premium/discount zones using equilibrium - determines if price is overvalued or undervalued.",
     parameters := [dataParam], required := ["data"] },
   { name := "detect_imbalances",
     description := "Detects price imbalances - rapid moves leaving gaps that price often revisits.",
     parameters := [dataParam], required := ["data"] },
   { name := "detect_inefficiencies",
     description := "Detects market inefficiencies - poorly traded zones with low volume that get revisited.",
     parameters := [dataParam], required := ["data"] },
   { name := "analyze_volume_profile",
     description := "Analyzes volume profile - identifies where most trading occurred (POC, value area).",
     parameters := [dataParam], required := ["data"] },
   { name := "detect_smart_money_divergence",
     description := "Detects smart money divergence - when price makes new highs/lows but institutions aren\x27t participating.",
     parameters := [dataParam], required := ["data"] },
   { name := "analyze_order_flow",
     description := "Analyzes order flow - determines buying vs selling pressure and who\x27s in control.",
     parameters := [dataParam], required := ["data"] },
   { name := "analyze_higher_timeframe_structure",
     description := "Analyzes higher timeframe structure - provides HTF context and bias for better trade probability.",
     parameters :=
       [{ name := "pair", type := "string",
          description := "Forex pair being analyzed", enum := none },
        { name := "current_timeframe", type := "string",
          description := "Current timeframe to get HTF context", enum := none }],
     required := ["pair", "current_timeframe"] },
   { name := "identify_confluences",
     description := "Identifies multi-factor confluences - areas where multiple SMC concepts align for high-probability setups.",
     parameters :=
       [{ name := "pair", type := "string",
          description := "Forex pair being analyzed", enum := none },
        { name := "timeframe", type := "string",
          description := "Timeframe being analyzed", enum := none }],
     required := ["pair", "timeframe"] },
   { name := "analyze_session_characteristics",
     description := "Analyzes trading session characteristics - different behaviors for Asian, London, NY sessions.",
     parameters := [dataParam], required := ["data"] },
   { name := "detect_news_impact_zones",
     description := "Detects news impact zones - price levels where fundamental news caused reactions.",
     parameters :=
       [{ name := "pair", type := "string",
          description := "Forex pair being analyzed", enum := none }],
     required := ["pair"] },
   { name := "identify_manipulation_patterns",
     description := "Identifies market manipulation patterns - stop hunts, traps, and false breakouts before true moves.",
     parameters := [dataParam], required := ["data"] },
   { name := "calculate_institutional_levels",
     description := "Calculates institutional price levels - round numbers and psychological levels where institutions place orders.",
     parameters := [dataParam], required := ["data"] },
   { name := "detect_wyckoff_phases",
     description := "Detects Wyckoff market phases - accumulation, markup, distribution, markdown patterns.",
     parameters := [dataParam], required := ["data"] },
   { name := "identify_turtle_soup_setups",
     description := "Identifies Turtle Soup patterns - false breakout reversals when stops are hunted.",
     parameters := [dataParam], required := ["data"] }]

/-- One tool-call request emitted by the model
(`tool_call.function.name` / parsed `arguments` / `tool_call.id`). -/
structure ToolCall where
  id : String
  name : String
  arguments : Args

/-- One chat-completion response (`response.choices[0].message`):
the content (empty string standing for Python `None`) and the tool-call
list (empty list standing for Python `None`, both falsy in the source
`if not response_message.tool_calls`). -/
structure LLMResponse where
  content : String
  tool_calls : List ToolCall

/-- One message of the conversation transcript. -/
inductive Message : Type where
  | system (content : String)
  | user (content : String)
  | assistant (response : LLMResponse)
  | tool (tool_call_id : String) (name : String) (content : JVal)

/-- One entry of the execution log. -/
inductive LogEntry : Type where
  | function_call (function : String) (arguments : Args)
  | function_result (function : String) (result : JVal)
  | final_response (content : String)
  | error (message : String)

/-- The outcome of one run: the execution log and final text returned by
`run_analysis`, plus the final transcript and two instrumentation counters —
`llm_calls` counts LLM round trips (claims about the iteration budget) and
`dispatch_calls` counts invocations of the registry dispatcher (claims about
the registry never being touched). -/
structure RunResult where
  execution_log : List LogEntry
  final_text : String
  messages : List Message
  llm_calls : ℕ
  dispatch_calls : ℕ

/-- `execute_function_call(function_name, function_args)` of `app.py`:
dispatch a tool call against the registry, converting unknown names and
raised exceptions to error records. -/
def execute_function_call (available : List (String × Capability))
    (function_name : String) (function_args : Args) : JVal :=
  match available.lookup function_name with
  | none => .obj [("error", .str ("Function " ++ function_name ++ " not found"))]
  | some function =>
    match function function_args with
    | .ok result => result
    | .error e => .obj [("error", .str e)]

/-- The `for tool_call in response_message.tool_calls` body of
`run_analysis`: returns the log entries and tool messages appended for the
calls of one turn (in order), plus the number of dispatcher invocations. -/
def processToolCalls (available : List (String × Capability)) :
    List ToolCall → List LogEntry × List Message × ℕ
  | [] => ([], [], 0)
  | tool_call :: rest =>
    let function_result :=
      execute_function_call available tool_call.name tool_call.arguments
    let (logs, msgs, count) := processToolCalls available rest
    (.function_call tool_call.name tool_call.arguments ::
       .function_result tool_call.name function_result :: logs,
     .tool tool_call.id tool_call.name function_result :: msgs,
     count + 1)

/-- `max_iterations = 10` of `run_analysis`. -/
def max_iterations : ℕ := 10

/-- The `while iteration < max_iterations` loop of `run_analysis`.
`fuel = max_iterations - iteration` counts the remaining iterations (so the
`fuel = 0` case is the loop condition failing, reaching the
exceeded-iterations return); `iteration` is the source counter before the
`iteration += 1` at the top of the body.  `oracle i` is the outcome of the
Groq call of iteration `i` (1-based); its `.error` case is the `except`
branch of the body. -/
def runLoop (oracle : ℕ → Except String LLMResponse)
    (available : List (String × Capability)) :
    ℕ → ℕ → List LogEntry → List Message → ℕ → ℕ → RunResult
  | 0, _, execution_log, messages, llm_calls, dispatch_calls =>
    { execution_log := execution_log,
      final_text := "Analysis exceeded maximum iterations. Please try again with a simpler query.",
      messages := messages, llm_calls := llm_calls,
      dispatch_calls := dispatch_calls }
  | fuel + 1, iteration, execution_log, messages, llm_calls, dispatch_calls =>
    let iter := iteration + 1
    match oracle iter with
    | .error e =>
      let error_msg := s!"Error in iteration {iter}: {e}"
      { execution_log := execution_log ++ [.error error_msg],
        final_text := "Analysis error: " ++ error_msg,
        messages := messages, llm_calls := llm_calls + 1,
        dispatch_calls := dispatch_calls }
    | .ok response_message =>
      if response_message.tool_calls.isEmpty then
        { execution_log := execution_log ++
            [.final_response response_message.content],
          final_text := response_message.content,
          messages := messages, llm_calls := llm_calls + 1,
          dispatch_calls := dispatch_calls }
      else
        let (logs, tool_msgs, count) :=
          processToolCalls available response_message.tool_calls
        runLoop oracle available fuel iter (execution_log ++ logs)
          (messages ++ [.assistant response_message] ++ tool_msgs)
          (llm_calls + 1) (dispatch_calls + count)

/-- `run_analysis(query, model, client)` of `app.py`: seed the transcript
with the system prompt and the user query, then run the bounded loop.  The
`model` / `client` pair is abstracted into the oracle. -/
def run_analysis (oracle : ℕ → Except String LLMResponse)
    (available : List (String × Capability)) (query : String) : RunResult :=
  runLoop oracle available max_iterations 0 []
    [Message.system SYSTEM_PROMPT, Message.user query] 0 0

/-- The log pairing invariant of the specification: every `function_call`
entry is immediately followed by the `function_result` entry of the same
function name. -/
def callsPaired : List LogEntry → Bool
  | [] => true
  | .function_call f _ :: .function_result g _ :: rest =>
    f == g && callsPaired rest
  | .function_call _ _ :: _ => false
  | _ :: rest => callsPaired rest

/-- A concrete snapshot with an empty candle sequence, below every
documented minimum of every capability; used as the concrete insufficient-data
input of the witnesses. -/
def emptySnap : MarketSnapshot :=
  { pair := "EURUSD", timeframe := "1h", current_price := 1, candles := [],
    indicators :=
      { rsi := 50, atr := 0, trend := "neutral", support := 0,
        resistance := 0 },
    market_context :=
      { volatility := "normal", session := "asian", momentum := "weak" },
    metadata := { data_points := 0, timestamp := 0, source := "mock_data" } }

/-! ## Helper lemmas -/

theorem genCandles_length (u : ℕ → ℚ) (rv : ℕ → ℕ) (m now : ℚ) :
    ∀ (i : ℕ) (p : ℚ), (PolygonMock.genCandles u rv m now i p).length = i := by
  intro i
  induction i with
  | zero => intro p; rfl
  | succ k ih => intro p; simp [PolygonMock.genCandles, ih]

theorem genCandles_head_timestamp (u : ℕ → ℚ) (rv : ℕ → ℕ) (m now : ℚ) :
    ∀ (i : ℕ) (p : ℚ) (c : Candle),
      c ∈ (PolygonMock.genCandles u rv m now i p).head? →
      c.timestamp = now - m * (i : ℚ) := by
  intro i
  cases i with
  | zero => intro p c hc; simp [PolygonMock.genCandles] at hc
  | succ k =>
    intro p c hc
    simp [PolygonMock.genCandles] at hc
    rw [← hc]
    push_cast
    ring

theorem genCandles_chain (u : ℕ → ℚ) (rv : ℕ → ℕ) (m now : ℚ) (hm : 0 < m) :
    ∀ (i : ℕ) (p : ℚ),
      List.Chain' (fun a b => a.timestamp < b.timestamp)
        (PolygonMock.genCandles u rv m now i p) := by
  intro i
  induction i with
  | zero => intro p; simp [PolygonMock.genCandles]
  | succ k ih =>
    intro p
    rw [PolygonMock.genCandles]
    rw [List.chain'_cons']
    refine ⟨?_, ih _⟩
    intro y hy
    have hts := genCandles_head_timestamp u rv m now k _ y hy
    rw [hts]
    have hk : (0 : ℚ) ≤ (k : ℚ) := by positivity
    show now - m * ((k : ℚ) + 1) < now - m * (k : ℚ)
    nlinarith

theorem timeframe_minutes_pos (timeframe : String) :
    0 < PolygonMock.timeframe_minutes timeframe := by
  unfold PolygonMock.timeframe_minutes
  simp only [List.lookup]
  repeat' split <;> simp_all

theorem mock_candles_eq (env : PolygonMock.MockEnv) (pair timeframe : String) :
    (PolygonMock.get_forex_data env pair timeframe).candles =
      PolygonMock.genCandles env.u env.rv
        ((PolygonMock.timeframe_minutes timeframe : ℕ) : ℚ) env.now 100
        (pyRound (env.u 0) 4) := rfl

theorem mock_candles_length (env : PolygonMock.MockEnv)
    (pair timeframe : String) :
    (PolygonMock.get_forex_data env pair timeframe).candles.length = 100 := by
  rw [mock_candles_eq]
  exact genCandles_length _ _ _ _ 100 _

/-! ## Claims about the data providers -/

/-- Claim C9: for every pair string and every timeframe string (and all
random draws and clock readings), the candle sequence returned by the
synthetic data generator is ordered oldest to newest with strictly
increasing timestamps: the timestamp of each candle is strictly greater than
that of the candle before it. -/
theorem claim_C9 (env : PolygonMock.MockEnv) (pair timeframe : String) :
    List.Chain' (fun a b => a.timestamp < b.timestamp)
      (PolygonMock.get_forex_data env pair timeframe).candles := by
  rw [mock_candles_eq]
  refine genCandles_chain _ _ _ _ ?_ 100 _
  exact_mod_cast timeframe_minutes_pos timeframe

/-- Claim C10: for every pair string and every timeframe string — including
timeframe values outside the documented enum, which are not rejected but
silently assigned a 60-minute candle spacing — the synthetic generator
returns a snapshot whose pair field equals the input upper-cased, whose
timeframe field echoes the input unchanged, whose candle sequence has
exactly 100 entries, and whose metadata `data_points` field equals 100. -/
theorem claim_C10 (env : PolygonMock.MockEnv) (pair timeframe : String) :
    (PolygonMock.get_forex_data env pair timeframe).pair = pyUpper pair ∧
    (PolygonMock.get_forex_data env pair timeframe).timeframe = timeframe ∧
    (PolygonMock.get_forex_data env pair timeframe).candles.length = 100 ∧
    (PolygonMock.get_forex_data env pair timeframe).metadata.data_points = 100 ∧
    (timeframe ∉ ["1m", "5m", "15m", "30m", "1h", "4h", "1d"] →
      PolygonMock.timeframe_minutes timeframe = 60) := by
  refine ⟨rfl, rfl, mock_candles_length env pair timeframe, ?_, ?_⟩
  · show (PolygonMock.get_forex_data env pair timeframe).candles.length = 100
    exact mock_candles_length env pair timeframe
  · intro h
    simp only [List.mem_cons, not_or] at h
    obtain ⟨h1, h2, h3, h4, h5, h6, h7, -⟩ := h
    unfold PolygonMock.timeframe_minutes
    simp [List.lookup, beq_eq_false_iff_ne.mpr h1, beq_eq_false_iff_ne.mpr h2,
      beq_eq_false_iff_ne.mpr h3, beq_eq_false_iff_ne.mpr h4,
      beq_eq_false_iff_ne.mpr h5, beq_eq_false_iff_ne.mpr h6,
      beq_eq_false_iff_ne.mpr h7]

/-- Witness for C10 at a concrete off-enum timeframe. -/
theorem claim_C10_witness :
    (PolygonMock.get_forex_data ⟨fun _ => 0, fun _ => 0, 0, 0⟩ "eurusd"
      "2h").candles.length = 100 ∧
    PolygonMock.timeframe_minutes "2h" = 60 := by
  obtain ⟨-, -, h3, -, h5⟩ :=
    claim_C10 ⟨fun _ => 0, fun _ => 0, 0, 0⟩ "eurusd" "2h"
  exact ⟨h3, h5 (by decide)⟩

/-- Claim C7: if the live market-data provider is unconfigured (no API key),
or its fetch raises, or it returns an empty aggregate list, then
`get_forex_data("EURUSD", "1h")` still returns (rather than propagating a
failure) a MarketSnapshot sourced from the synthetic generator with pair
`"EURUSD"`, timeframe `"1h"`, and a non-empty candle sequence. -/
theorem claim_C7 (env : PolygonApi.PolygonEnv)
    (hfb : env.api_key = none ∨
      (∃ e, env.get_aggs "C:EURUSD" 1 "hour" = .error e) ∨
      env.get_aggs "C:EURUSD" 1 "hour" = .ok []) :
    PolygonApi.get_forex_data env "EURUSD" "1h" =
      PolygonMock.get_forex_data env.mock "EURUSD" "1h" ∧
    (PolygonApi.get_forex_data env "EURUSD" "1h").pair = "EURUSD" ∧
    (PolygonApi.get_forex_data env "EURUSD" "1h").timeframe = "1h" ∧
    (PolygonApi.get_forex_data env "EURUSD" "1h").candles ≠ [] := by
  have hticker : ("C:" ++ pyUpper "EURUSD") = "C:EURUSD" := rfl
  have heq : PolygonApi.get_forex_data env "EURUSD" "1h" =
      PolygonMock.get_forex_data env.mock "EURUSD" "1h" := by
    unfold PolygonApi.get_forex_data
    cases hk : env.api_key with
    | none => simp
    | some key =>
      rcases hfb with h | ⟨e, he⟩ | he
      · rw [hk] at h; exact absurd h (by simp)
      · rw [hticker] at *
        simp only []
        rw [show PolygonApi.timeframe_map "1h" = (1, "hour") from rfl] at *
        rw [he]
      · rw [hticker] at *
        simp only []
        rw [show PolygonApi.timeframe_map "1h" = (1, "hour") from rfl] at *
        rw [he]
        simp
  refine ⟨heq, ?_, ?_, ?_⟩
  · rw [heq]; rfl
  · rw [heq]; rfl
  · rw [heq]
    intro hnil
    have := mock_candles_length env.mock "EURUSD" "1h"
    rw [hnil] at this
    simp at this

/-- Witness for C7 with an unconfigured provider. -/
theorem claim_C7_witness :
    (PolygonApi.get_forex_data
      ⟨none, fun _ _ _ => Except.ok [], 0, 0, ⟨fun _ => 0, fun _ => 0, 0, 0⟩⟩
      "EURUSD" "1h").pair = "EURUSD" ∧
    (PolygonApi.get_forex_data
      ⟨none, fun _ _ _ => Except.ok [], 0, 0, ⟨fun _ => 0, fun _ => 0, 0, 0⟩⟩
      "EURUSD" "1h").candles ≠ [] := by
  obtain ⟨-, h2, -, h4⟩ := claim_C7
    ⟨none, fun _ _ _ => Except.ok [], 0, 0, ⟨fun _ => 0, fun _ => 0, 0, 0⟩⟩
    (Or.inl rfl)
  exact ⟨h2, h4⟩

/-! ## Claims about the registry and schema catalog -/

/-- Claim C8: the set of function names declared in the Tool Schema Catalog
equals the key set of the Registry: the name of every schema entry resolves to a
registry entry, and every registry key has exactly one schema entry (24
names on each side). -/
theorem claim_C8 (env : AppEnv) :
    FUNCTION_SCHEMAS.map FunctionSchema.name =
      (AVAILABLE_FUNCTIONS env).map Prod.fst ∧
    ((AVAILABLE_FUNCTIONS env).map Prod.fst).Nodup ∧
    (FUNCTION_SCHEMAS.map FunctionSchema.name).Nodup ∧
    (FUNCTION_SCHEMAS.map FunctionSchema.name).length = 24 ∧
    ((AVAILABLE_FUNCTIONS env).map Prod.fst).length = 24 ∧
    (∀ n, n ∈ FUNCTION_SCHEMAS.map FunctionSchema.name ↔
      n ∈ (AVAILABLE_FUNCTIONS env).map Prod.fst) := by
  have hreg : (AVAILABLE_FUNCTIONS env).map Prod.fst =
      ["get_forex_data", "detect_bos", "detect_choch",
       "detect_market_structure_break", "detect_liquidity_sweep",
       "identify_liquidity_pools", "detect_liquidity_void",
       "identify_order_blocks", "identify_fair_value_gaps",
       "identify_breaker_blocks", "calculate_premium_discount_zones",
       "detect_imbalances", "detect_inefficiencies", "analyze_volume_profile",
       "detect_smart_money_divergence", "analyze_order_flow",
       "analyze_higher_timeframe_structure", "identify_confluences",
       "analyze_session_characteristics", "detect_news_impact_zones",
       "identify_manipulation_patterns", "calculate_institutional_levels",
       "detect_wyckoff_phases", "identify_turtle_soup_setups"] := rfl
  have hsch : FUNCTION_SCHEMAS.map FunctionSchema.name =
      ["get_forex_data", "detect_bos", "detect_choch",
       "detect_market_structure_break", "detect_liquidity_sweep",
       "identify_liquidity_pools", "detect_liquidity_void",
       "identify_order_blocks", "identify_fair_value_gaps",
       "identify_breaker_blocks", "calculate_premium_discount_zones",
       "detect_imbalances", "detect_inefficiencies", "analyze_volume_profile",
       "detect_smart_money_divergence", "analyze_order_flow",
       "analyze_higher_timeframe_structure", "identify_confluences",
       "analyze_session_characteristics", "detect_news_impact_zones",
       "identify_manipulation_patterns", "calculate_institutional_levels",
       "detect_wyckoff_phases", "identify_turtle_soup_setups"] := rfl
  refine ⟨hsch.trans hreg.symm, ?_, ?_, ?_, ?_, fun n => ?_⟩
  · rw [hreg]; decide
  · rw [hsch]; decide
  · rw [hsch]; rfl
  · rw [hreg]; rfl
  · rw [hsch, hreg]

/-- Claim C2: for every name string and every argument mapping,
`execute_function_call` returns a value (it is total, never raising): if the
name is not a key of the registry it returns an ErrorRecord whose error text
contains the name; if the looked-up capability raises any exception when
invoked with the supplied arguments, the exception is converted to an
ErrorRecord carrying the exception message; otherwise the result of the
capability is returned unchanged.  Stated for every registry value, hence in
particular for `AVAILABLE_FUNCTIONS`. -/
theorem claim_C2 (available : List (String × Capability))
    (function_name : String) (function_args : Args) :
    (available.lookup function_name = none →
      execute_function_call available function_name function_args =
        .obj [("error",
          .str ("Function " ++ function_name ++ " not found"))]) ∧
    (∀ function e, available.lookup function_name = some function →
      function function_args = .error e →
      execute_function_call available function_name function_args =
        .obj [("error", .str e)]) ∧
    (∀ function result, available.lookup function_name = some function →
      function function_args = .ok result →
      execute_function_call available function_name function_args = result) := by
  refine ⟨fun h => ?_, fun f e hf he => ?_, fun f r hf hr => ?_⟩ <;>
    simp [execute_function_call, *]

/-- Witness for C2 on an unknown capability name. -/
theorem claim_C2_witness :
    execute_function_call [] "get_candles" [] =
      .obj [("error", .str "Function get_candles not found")] := by
  have h := (claim_C2 [] "get_candles" []).1 rfl
  exact h.trans (by rfl)

/-! ## Loop lemmas -/

theorem runLoop_llm_le (oracle : ℕ → Except String LLMResponse)
    (available : List (String × Capability)) :
    ∀ (fuel iteration : ℕ) (log : List LogEntry) (msgs : List Message)
      (llm disp : ℕ),
      (runLoop oracle available fuel iteration log msgs llm disp).llm_calls ≤
        llm + fuel := by
  intro fuel
  induction fuel with
  | zero => intro iteration log msgs llm disp; simp [runLoop]
  | succ k ih =>
    intro iteration log msgs llm disp
    rw [runLoop]
    cases ho : oracle (iteration + 1) with
    | error e => simp only []; omega
    | ok r =>
      simp only []
      cases he : r.tool_calls.isEmpty with
      | true =>
        rw [if_pos (by simp [he])]
        show llm + 1 ≤ llm + (k + 1)
        omega
      | false =>
        rw [if_neg (by simp [he])]
        rcases hp : processToolCalls available r.tool_calls with ⟨logs, m2, c⟩
        simp only [hp]
        have := ih (iteration + 1) (log ++ logs)
          (msgs ++ [.assistant r] ++ m2) (llm + 1) (disp + c)
        omega

theorem runLoop_exceeds (oracle : ℕ → Except String LLMResponse)
    (available : List (String × Capability)) :
    ∀ (fuel iteration : ℕ) (log : List LogEntry) (msgs : List Message)
      (llm disp : ℕ),
      (∀ j, iteration < j → j ≤ iteration + fuel →
        ∃ r, oracle j = Except.ok r ∧ r.tool_calls ≠ []) →
      (runLoop oracle available fuel iteration log msgs llm disp).final_text =
        "Analysis exceeded maximum iterations. Please try again with a simpler query." ∧
      (runLoop oracle available fuel iteration log msgs llm disp).llm_calls =
        llm + fuel := by
  intro fuel
  induction fuel with
  | zero => intro iteration log msgs llm disp hall; simp [runLoop]
  | succ k ih =>
    intro iteration log msgs llm disp hall
    obtain ⟨r, hok, hne⟩ := hall (iteration + 1) (by omega) (by omega)
    rw [runLoop]
    simp only [hok]
    have he : r.tool_calls.isEmpty = false := by
      simpa [List.isEmpty_iff] using hne
    rw [if_neg (by simp [he])]
    rcases hp : processToolCalls available r.tool_calls with ⟨logs, m2, c⟩
    simp only [hp]
    have := ih (iteration + 1) (log ++ logs) (msgs ++ [.assistant r] ++ m2)
      (llm + 1) (disp + c) (fun j hj1 hj2 => hall j (by omega) (by omega))
    exact ⟨this.1, by omega⟩

theorem runLoop_error_stops (oracle : ℕ → Except String LLMResponse)
    (available : List (String × Capability)) (k : ℕ) (e : String) :
    ∀ (fuel iteration : ℕ) (log : List LogEntry) (msgs : List Message)
      (llm disp : ℕ),
      iteration < k → k ≤ iteration + fuel →
      oracle k = Except.error e →
      (∀ j, iteration < j → j < k →
        ∃ r, oracle j = Except.ok r ∧ r.tool_calls ≠ []) →
      ∃ pre,
        (runLoop oracle available fuel iteration log msgs llm
            disp).execution_log =
          pre ++ [LogEntry.error s!"Error in iteration {k}: {e}"] ∧
        (runLoop oracle available fuel iteration log msgs llm
            disp).final_text =
          "Analysis error: " ++ s!"Error in iteration {k}: {e}" ∧
        (runLoop oracle available fuel iteration log msgs llm
            disp).llm_calls = llm + (k - iteration) := by
  intro fuel
  induction fuel with
  | zero => intro iteration log msgs llm disp h1 h2; omega
  | succ fk ih =>
    intro iteration log msgs llm disp h1 h2 herr hprev
    by_cases hk : k = iteration + 1
    · subst hk
      rw [runLoop]
      simp only [herr]
      refine ⟨log, ?_, ?_, ?_⟩
      · rfl
      · trivial
      · show llm + 1 = llm + (iteration + 1 - iteration)
        omega
    · obtain ⟨r, hok, hne⟩ := hprev (iteration + 1) (by omega) (by omega)
      rw [runLoop]
      simp only [hok]
      have he : r.tool_calls.isEmpty = false := by
        simpa [List.isEmpty_iff] using hne
      rw [if_neg (by simp [he])]
      rcases hp : processToolCalls available r.tool_calls with ⟨logs, m2, c⟩
      simp only [hp]
      obtain ⟨pre, ha, hb, hc⟩ := ih (iteration + 1) (log ++ logs)
        (msgs ++ [.assistant r] ++ m2) (llm + 1) (disp + c) (by omega)
        (by omega) herr (fun j hj1 hj2 => hprev j (by omega) hj2)
      exact ⟨pre, ha, hb, by omega⟩

theorem runLoop_final_answer (oracle : ℕ → Except String LLMResponse)
    (available : List (String × Capability)) (k : ℕ) (r : LLMResponse) :
    ∀ (fuel iteration : ℕ) (log : List LogEntry) (msgs : List Message)
      (llm disp : ℕ),
      iteration < k → k ≤ iteration + fuel →
      oracle k = Except.ok r → r.tool_calls = [] →
      (∀ j, iteration < j → j < k →
        ∃ r2, oracle j = Except.ok r2 ∧ r2.tool_calls ≠ []) →
      ∃ pre,
        (runLoop oracle available fuel iteration log msgs llm
            disp).execution_log =
          pre ++ [LogEntry.final_response r.content] ∧
        (runLoop oracle available fuel iteration log msgs llm
            disp).final_text = r.content ∧
        (runLoop oracle available fuel iteration log msgs llm
            disp).llm_calls = llm + (k - iteration) ∧
        (k = iteration + 1 →
          pre = log ∧
          (runLoop oracle available fuel iteration log msgs llm
              disp).dispatch_calls = disp) := by
  intro fuel
  induction fuel with
  | zero => intro iteration log msgs llm disp h1 h2; omega
  | succ fk ih =>
    intro iteration log msgs llm disp h1 h2 hok hempty hprev
    by_cases hk : k = iteration + 1
    · subst hk
      rw [runLoop]
      simp only [hok]
      have he : r.tool_calls.isEmpty = true := by simp [hempty]
      rw [if_pos (by simp [he])]
      refine ⟨log, rfl, rfl, ?_, fun _ => ⟨rfl, rfl⟩⟩
      show llm + 1 = llm + (iteration + 1 - iteration)
      omega
    · obtain ⟨r2, hok2, hne2⟩ := hprev (iteration + 1) (by omega) (by omega)
      rw [runLoop]
      simp only [hok2]
      have he2 : r2.tool_calls.isEmpty = false := by
        simpa [List.isEmpty_iff] using hne2
      rw [if_neg (by simp [he2])]
      rcases hp : processToolCalls available r2.tool_calls with ⟨logs, m2, c⟩
      simp only [hp]
      obtain ⟨pre, ha, hb, hc, -⟩ := ih (iteration + 1) (log ++ logs)
        (msgs ++ [.assistant r2] ++ m2) (llm + 1) (disp + c) (by omega)
        (by omega) hok hempty (fun j hj1 hj2 => hprev j (by omega) hj2)
      exact ⟨pre, ha, hb, by omega, fun hcon => absurd hcon hk⟩

theorem callsPaired_append :
    ∀ (l l' : List LogEntry), callsPaired l = true → callsPaired l' = true →
      callsPaired (l ++ l') = true := by
  intro l
  induction l using callsPaired.induct with
  | case1 => intro l' h h'; simpa using h'
  | case2 f a g b rest ih =>
    intro l' h h'
    simp only [callsPaired, Bool.and_eq_true, beq_iff_eq] at h
    simpa [callsPaired, h.1] using ih l' h.2 h'
  | case3 f a tail hne =>
    intro l' h h'
    simp [callsPaired] at h
  | case4 head rest h12 h2 ih =>
    intro l' h h'
    cases head with
    | function_call f a => exact absurd rfl (h2 f a)
    | function_result f v =>
      simp only [callsPaired] at h
      simpa [callsPaired] using ih l' h h'
    | final_response s =>
      simp only [callsPaired] at h
      simpa [callsPaired] using ih l' h h'
    | error s =>
      simp only [callsPaired] at h
      simpa [callsPaired] using ih l' h h'

theorem callsPaired_processToolCalls (available : List (String × Capability)) :
    ∀ tcs : List ToolCall,
      callsPaired (processToolCalls available tcs).1 = true := by
  intro tcs
  induction tcs with
  | nil => rfl
  | cons tc rest ih =>
    simp only [processToolCalls]
    rcases hp : processToolCalls available rest with ⟨logs, msgs, c⟩
    rw [hp] at ih
    simp only [hp]
    simpa [callsPaired] using ih

theorem runLoop_callsPaired (oracle : ℕ → Except String LLMResponse)
    (available : List (String × Capability)) :
    ∀ (fuel iteration : ℕ) (log : List LogEntry) (msgs : List Message)
      (llm disp : ℕ),
      callsPaired log = true →
      callsPaired (runLoop oracle available fuel iteration log msgs llm
        disp).execution_log = true := by
  intro fuel
  induction fuel with
  | zero => intro iteration log msgs llm disp h; simpa [runLoop] using h
  | succ k ih =>
    intro iteration log msgs llm disp h
    rw [runLoop]
    cases ho : oracle (iteration + 1) with
    | error e =>
      simp only []
      exact callsPaired_append _ _ h (by rfl)
    | ok r =>
      simp only []
      cases he : r.tool_calls.isEmpty with
      | true =>
        rw [if_pos (by simp [he])]
        exact callsPaired_append _ _ h (by rfl)
      | false =>
        rw [if_neg (by simp [he])]
        rcases hp : processToolCalls available r.tool_calls with ⟨logs, m2, c⟩
        have hlogs := callsPaired_processToolCalls available r.tool_calls
        rw [hp] at hlogs
        simp only [hp]
        exact ih (iteration + 1) (log ++ logs)
          (msgs ++ [.assistant r] ++ m2) (llm + 1) (disp + c)
          (callsPaired_append _ _ h hlogs)

/-! ## Claims about the orchestration loop -/

/-- Claim C1: for every sequence of LLM responses, `run_analysis` performs
at most 10 LLM round trips and terminates (it is a total function); in
particular, if every one of the 10 responses contains at least one
tool-call request, the run returns the accumulated execution log together
with the fixed terminal message stating the analysis exceeded maximum
iterations, rather than looping further. -/
theorem claim_C1 (oracle : ℕ → Except String LLMResponse)
    (available : List (String × Capability)) (query : String) :
    (run_analysis oracle available query).llm_calls ≤ max_iterations ∧
    ((∀ j, 1 ≤ j → j ≤ max_iterations →
        ∃ r, oracle j = Except.ok r ∧ r.tool_calls ≠ []) →
      (run_analysis oracle available query).final_text =
        "Analysis exceeded maximum iterations. Please try again with a simpler query." ∧
      (run_analysis oracle available query).llm_calls = max_iterations) := by
  constructor
  · simpa using runLoop_llm_le oracle available max_iterations 0 []
      [Message.system SYSTEM_PROMPT, Message.user query] 0 0
  · intro hall
    have := runLoop_exceeds oracle available max_iterations 0 []
      [Message.system SYSTEM_PROMPT, Message.user query] 0 0
      (fun j hj1 hj2 => hall j (by omega) (by simpa using hj2))
    simpa using this

/-- Witness for C1: a model that requests a tool call on every turn hits
the iteration cap. -/
theorem claim_C1_witness :
    (run_analysis (fun _ => Except.ok ⟨"", [⟨"1", "f", []⟩]⟩) [] "q").final_text
      = "Analysis exceeded maximum iterations. Please try again with a simpler query." ∧
    (run_analysis (fun _ => Except.ok ⟨"", [⟨"1", "f", []⟩]⟩) [] "q").llm_calls
      = max_iterations := by
  exact (claim_C1 (fun _ => Except.ok ⟨"", [⟨"1", "f", []⟩]⟩) [] "q").2
    (fun j hj1 hj2 => ⟨⟨"", [⟨"1", "f", []⟩]⟩, rfl, by simp⟩)

/-- Claim C3: `run_analysis` never raises past the orchestration boundary
and always returns a log/text pair (it is a total function into
`RunResult`); and whenever the LLM-call step itself raises an exception in
the iteration it reaches, that exception is caught, an `error` log entry is
appended, and the run terminates immediately (no retry: exactly `k` round
trips happen) with a surfaced error message as the returned text. -/
theorem claim_C3 (oracle : ℕ → Except String LLMResponse)
    (available : List (String × Capability)) (query : String) (k : ℕ)
    (e : String) (hk1 : 1 ≤ k) (hk2 : k ≤ max_iterations)
    (herr : oracle k = Except.error e)
    (hprev : ∀ j, 1 ≤ j → j < k →
      ∃ r, oracle j = Except.ok r ∧ r.tool_calls ≠ []) :
    ∃ pre,
      (run_analysis oracle available query).execution_log =
        pre ++ [LogEntry.error s!"Error in iteration {k}: {e}"] ∧
      (run_analysis oracle available query).final_text =
        "Analysis error: " ++ s!"Error in iteration {k}: {e}" ∧
      (run_analysis oracle available query).llm_calls = k := by
  obtain ⟨pre, ha, hb, hc⟩ := runLoop_error_stops oracle available k e
    max_iterations 0 [] [Message.system SYSTEM_PROMPT, Message.user query] 0 0
    (by omega) (by omega) herr (fun j hj1 hj2 => hprev j (by omega) hj2)
  exact ⟨pre, ha, hb, by simpa using hc⟩

/-- Witness for C3: an LLM-call failure on the first turn surfaces as the
error result after exactly one round trip. -/
theorem claim_C3_witness :
    (run_analysis (fun _ => Except.error "boom") [] "q").final_text =
      "Analysis error: Error in iteration 1: boom" ∧
    (run_analysis (fun _ => Except.error "boom") [] "q").llm_calls = 1 := by
  obtain ⟨pre, -, htext, hllm⟩ := claim_C3 (fun _ => Except.error "boom") []
    "q" 1 "boom" (by omega) (by norm_num [max_iterations]) rfl
    (fun j hj1 hj2 => absurd hj2 (by omega))
  exact ⟨htext.trans (by rfl), hllm⟩

/-- Claim C4: if in the iteration it reaches the LLM response contains no
tool-call requests, the loop reaches its terminal state: it appends a
`final_response` log entry containing the response content and returns the
log together with that content as the final answer; when this occurs on the
first turn, the registry dispatcher is never invoked and the returned log
consists of exactly that single `final_response` entry. -/
theorem claim_C4 (oracle : ℕ → Except String LLMResponse)
    (available : List (String × Capability)) (query : String) (k : ℕ)
    (r : LLMResponse) (hk1 : 1 ≤ k) (hk2 : k ≤ max_iterations)
    (hok : oracle k = Except.ok r) (hempty : r.tool_calls = [])
    (hprev : ∀ j, 1 ≤ j → j < k →
      ∃ r2, oracle j = Except.ok r2 ∧ r2.tool_calls ≠ []) :
    ∃ pre,
      (run_analysis oracle available query).execution_log =
        pre ++ [LogEntry.final_response r.content] ∧
      (run_analysis oracle available query).final_text = r.content ∧
      (k = 1 →
        (run_analysis oracle available query).execution_log =
          [LogEntry.final_response r.content] ∧
        (run_analysis oracle available query).dispatch_calls = 0 ∧
        (run_analysis oracle available query).llm_calls = 1) := by
  obtain ⟨pre, ha, hb, hc, hd⟩ := runLoop_final_answer oracle available k r
    max_iterations 0 [] [Message.system SYSTEM_PROMPT, Message.user query] 0 0
    (by omega) (by omega) hok hempty
    (fun j hj1 hj2 => hprev j (by omega) hj2)
  refine ⟨pre, ha, hb, fun h1 => ?_⟩
  obtain ⟨hpre, hdisp⟩ := hd (by omega)
  subst hpre
  refine ⟨by simpa using ha, hdisp, by simpa [h1] using hc⟩

/-- Witness for C4: a first-turn response with no tool calls short-circuits
to the final answer without touching the registry. -/
theorem claim_C4_witness :
    (run_analysis (fun _ => Except.ok ⟨"done", []⟩) [] "q").execution_log =
      [LogEntry.final_response "done"] ∧
    (run_analysis (fun _ => Except.ok ⟨"done", []⟩) [] "q").final_text =
      "done" ∧
    (run_analysis (fun _ => Except.ok ⟨"done", []⟩) [] "q").dispatch_calls
      = 0 := by
  obtain ⟨pre, -, htext, h1⟩ := claim_C4 (fun _ => Except.ok ⟨"done", []⟩) []
    "q" 1 ⟨"done", []⟩ (by omega) (by norm_num [max_iterations]) rfl rfl
    (fun j hj1 hj2 => absurd hj2 (by omega))
  obtain ⟨hlog, hdisp, -⟩ := h1 rfl
  exact ⟨hlog, htext, hdisp⟩

/-- Claim C5: in every execution log produced by `run_analysis`, every
`function_call` entry has a matching `function_result` entry for the same
function name, and the pairs appear in emission order: each `function_call`
entry is immediately followed by its `function_result` entry. -/
theorem claim_C5 (oracle : ℕ → Except String LLMResponse)
    (available : List (String × Capability)) (query : String) :
    callsPaired (run_analysis oracle available query).execution_log = true :=
  runLoop_callsPaired oracle available max_iterations 0 []
    [Message.system SYSTEM_PROMPT, Message.user query] 0 0 rfl

/-! ## Claim about the capability guards -/

/-- Claim C6: for every analysis capability and every MarketSnapshot whose
candle sequence is shorter than the guarded minimum of that capability (detect_bos
20, detect_choch 30, detect_market_structure_break 25, detect_liquidity_sweep
30, identify_liquidity_pools 40, detect_liquidity_void 30,
identify_order_blocks 50, identify_fair_value_gaps 20,
identify_breaker_blocks 40, calculate_premium_discount_zones 50,
detect_imbalances 25, detect_inefficiencies 30, analyze_volume_profile 40,
detect_smart_money_divergence 40, analyze_order_flow 20,
identify_manipulation_patterns 30, detect_wyckoff_phases 50,
identify_turtle_soup_setups 30), invoking the capability (with any random
draws) returns the well-formed insufficient-data record shown, and — being a
total function — never throws.  The remaining capabilities
(`calculate_institutional_levels` and the pair/timeframe-based ones) read no
candles, so their documented minimum is zero and the claim is vacuous for
them. -/
theorem claim_C6 :
    (∀ (rnd : ℕ → ℚ) (rint : ℕ → ℕ) (data : MarketSnapshot)
        (timeframe : String), data.candles.length < 20 →
      Smc.detect_bos rnd rint data timeframe =
        .obj [("detected", .bool false),
              ("message", .str "Insufficient data for BOS detection")]) ∧
    (∀ (rnd : ℕ → ℚ) (rint : ℕ → ℕ) (data : MarketSnapshot),
        data.candles.length < 30 →
      Smc.detect_choch rnd rint data =
        .obj [("detected", .bool false),
              ("message", .str "Insufficient data for CHoCH detection")]) ∧
    (∀ (rnd : ℕ → ℚ) (rint : ℕ → ℕ) (data : MarketSnapshot),
        data.candles.length < 25 →
      Smc.detect_market_structure_break rnd rint data =
        .obj [("detected", .bool false),
              ("message", .str "Insufficient data for MSB detection")]) ∧
    (∀ (rnd : ℕ → ℚ) (rint : ℕ → ℕ) (data : MarketSnapshot),
        data.candles.length < 30 →
      Smc.detect_liquidity_sweep rnd rint data =
        .obj [("sweeps", .arr []), ("message", .str "Insufficient data")]) ∧
    (∀ (rint : ℕ → ℕ) (data : MarketSnapshot), data.candles.length < 40 →
      Smc.identify_liquidity_pools rint data =
        .obj [("pools", .arr []), ("message", .str "Insufficient data")]) ∧
    (∀ (rnd : ℕ → ℚ) (rint : ℕ → ℕ) (data : MarketSnapshot),
        data.candles.length < 30 →
      Smc.detect_liquidity_void rnd rint data =
        .obj [("voids", .arr []), ("message", .str "Insufficient data")]) ∧
    (∀ (rnd : ℕ → ℚ) (rint : ℕ → ℕ) (data : MarketSnapshot),
        data.candles.length < 50 →
      Smc.identify_order_blocks rnd rint data =
        .obj [("order_blocks", .arr []),
              ("message", .str "Insufficient data")]) ∧
    (∀ (rnd : ℕ → ℚ) (rint : ℕ → ℕ) (data : MarketSnapshot),
        data.candles.length < 20 →
      Smc.identify_fair_value_gaps rnd rint data =
        .obj [("fvgs", .arr []), ("message", .str "Insufficient data")]) ∧
    (∀ (rint : ℕ → ℕ) (data : MarketSnapshot), data.candles.length < 40 →
      Smc.identify_breaker_blocks rint data =
        .obj [("breaker_blocks", .arr []),
              ("message", .str "Insufficient data")]) ∧
    (∀ (data : MarketSnapshot), data.candles.length < 50 →
      Smc.calculate_premium_discount_zones data =
        .obj [("zones", .obj []), ("message", .str "Insufficient data")]) ∧
    (∀ (rnd : ℕ → ℚ) (rint : ℕ → ℕ) (data : MarketSnapshot),
        data.candles.length < 25 →
      Smc.detect_imbalances rnd rint data =
        .obj [("imbalances", .arr []),
              ("message", .str "Insufficient data")]) ∧
    (∀ (rnd : ℕ → ℚ) (rint : ℕ → ℕ) (data : MarketSnapshot),
        data.candles.length < 30 →
      Smc.detect_inefficiencies rnd rint data =
        .obj [("inefficiencies", .arr []),
              ("message", .str "Insufficient data")]) ∧
    (∀ (data : MarketSnapshot), data.candles.length < 40 →
      Smc.analyze_volume_profile data =
        .obj [("profile", .obj []), ("message", .str "Insufficient data")]) ∧
    (∀ (rnd : ℕ → ℚ) (rint : ℕ → ℕ) (data : MarketSnapshot),
        data.candles.length < 40 →
      Smc.detect_smart_money_divergence rnd rint data =
        .obj [("divergence", .null), ("message", .str "Insufficient data")]) ∧
    (∀ (data : MarketSnapshot), data.candles.length < 20 →
      Smc.analyze_order_flow data =
        .obj [("flow", .obj []), ("message", .str "Insufficient data")]) ∧
    (∀ (rnd : ℕ → ℚ) (rint : ℕ → ℕ) (data : MarketSnapshot),
        data.candles.length < 30 →
      Smc.identify_manipulation_patterns rnd rint data =
        .obj [("manipulations", .arr []),
              ("message", .str "Insufficient data")]) ∧
    (∀ (rnd : ℕ → ℚ) (rint : ℕ → ℕ) (data : MarketSnapshot),
        data.candles.length < 50 →
      Smc.detect_wyckoff_phases rnd rint data =
        .obj [("phase", .null), ("message", .str "Insufficient data")]) ∧
    (∀ (rnd : ℕ → ℚ) (rint : ℕ → ℕ) (data : MarketSnapshot),
        data.candles.length < 30 →
      Smc.identify_turtle_soup_setups rnd rint data =
        .obj [("setups", .arr []), ("message", .str "Insufficient data")]) := by
  refine ⟨?_, ?_, ?_, ?_, ?_, ?_, ?_, ?_, ?_, ?_, ?_, ?_, ?_, ?_, ?_, ?_,
    ?_, ?_⟩
  · intro rnd rint data timeframe h
    simp only [Smc.detect_bos]; rw [if_pos h]
  · intro rnd rint data h
    simp only [Smc.detect_choch]; rw [if_pos h]
  · intro rnd rint data h
    simp only [Smc.detect_market_structure_break]; rw [if_pos h]
  · intro rnd rint data h
    simp only [Smc.detect_liquidity_sweep]; rw [if_pos h]
  · intro rint data h
    simp only [Smc.identify_liquidity_pools]; rw [if_pos h]
  · intro rnd rint data h
    simp only [Smc.detect_liquidity_void]; rw [if_pos h]
  · intro rnd rint data h
    simp only [Smc.identify_order_blocks]; rw [if_pos h]
  · intro rnd rint data h
    simp only [Smc.identify_fair_value_gaps]; rw [if_pos h]
  · intro rint data h
    simp only [Smc.identify_breaker_blocks]; rw [if_pos h]
  · intro data h
    simp only [Smc.calculate_premium_discount_zones]; rw [if_pos h]
  · intro rnd rint data h
    simp only [Smc.detect_imbalances]; rw [if_pos h]
  · intro rnd rint data h
    simp only [Smc.detect_inefficiencies]; rw [if_pos h]
  · intro data h
    simp only [Smc.analyze_volume_profile]; rw [if_pos h]
  · intro rnd rint data h
    simp only [Smc.detect_smart_money_divergence]; rw [if_pos h]
  · intro data h
    simp only [Smc.analyze_order_flow]; rw [if_pos h]
  · intro rnd rint data h
    simp only [Smc.identify_manipulation_patterns]; rw [if_pos h]
  · intro rnd rint data h
    simp only [Smc.detect_wyckoff_phases]; rw [if_pos h]
  · intro rnd rint data h
    simp only [Smc.identify_turtle_soup_setups]; rw [if_pos h]

/-- Witness for C6: every guarded capability, invoked on the concrete empty
snapshot, returns its insufficient-data record. -/
theorem claim_C6_witness :
    Smc.detect_bos (fun _ => 0) (fun _ => 0) emptySnap "1h" =
      .obj [("detected", .bool false),
            ("message", .str "Insufficient data for BOS detection")] ∧
    Smc.detect_choch (fun _ => 0) (fun _ => 0) emptySnap =
      .obj [("detected", .bool false),
            ("message", .str "Insufficient data for CHoCH detection")] ∧
    Smc.detect_market_structure_break (fun _ => 0) (fun _ => 0) emptySnap =
      .obj [("detected", .bool false),
            ("message", .str "Insufficient data for MSB detection")] ∧
    Smc.detect_liquidity_sweep (fun _ => 0) (fun _ => 0) emptySnap =
      .obj [("sweeps", .arr []), ("message", .str "Insufficient data")] ∧
    Smc.identify_liquidity_pools (fun _ => 0) emptySnap =
      .obj [("pools", .arr []), ("message", .str "Insufficient data")] ∧
    Smc.detect_liquidity_void (fun _ => 0) (fun _ => 0) emptySnap =
      .obj [("voids", .arr []), ("message", .str "Insufficient data")] ∧
    Smc.identify_order_blocks (fun _ => 0) (fun _ => 0) emptySnap =
      .obj [("order_blocks", .arr []), ("message", .str "Insufficient data")] ∧
    Smc.identify_fair_value_gaps (fun _ => 0) (fun _ => 0) emptySnap =
      .obj [("fvgs", .arr []), ("message", .str "Insufficient data")] ∧
    Smc.identify_breaker_blocks (fun _ => 0) emptySnap =
      .obj [("breaker_blocks", .arr []),
            ("message", .str "Insufficient data")] ∧
    Smc.calculate_premium_discount_zones emptySnap =
      .obj [("zones", .obj []), ("message", .str "Insufficient data")] ∧
    Smc.detect_imbalances (fun _ => 0) (fun _ => 0) emptySnap =
      .obj [("imbalances", .arr []), ("message", .str "Insufficient data")] ∧
    Smc.detect_inefficiencies (fun _ => 0) (fun _ => 0) emptySnap =
      .obj [("inefficiencies", .arr []),
            ("message", .str "Insufficient data")] ∧
    Smc.analyze_volume_profile emptySnap =
      .obj [("profile", .obj []), ("message", .str "Insufficient data")] ∧
    Smc.detect_smart_money_divergence (fun _ => 0) (fun _ => 0) emptySnap =
      .obj [("divergence", .null), ("message", .str "Insufficient data")] ∧
    Smc.analyze_order_flow emptySnap =
      .obj [("flow", .obj []), ("message", .str "Insufficient data")] ∧
    Smc.identify_manipulation_patterns (fun _ => 0) (fun _ => 0) emptySnap =
      .obj [("manipulations", .arr []),
            ("message", .str "Insufficient data")] ∧
    Smc.detect_wyckoff_phases (fun _ => 0) (fun _ => 0) emptySnap =
      .obj [("phase", .null), ("message", .str "Insufficient data")] ∧
    Smc.identify_turtle_soup_setups (fun _ => 0) (fun _ => 0) emptySnap =
      .obj [("setups", .arr []), ("message", .str "Insufficient data")] := by
  obtain ⟨h1, h2, h3, h4, h5, h6, h7, h8, h9, h10, h11, h12, h13, h14, h15,
    h16, h17, h18⟩ := claim_C6
  have hlen : emptySnap.candles.length = 0 := rfl
  exact ⟨h1 _ _ _ "1h" (by omega), h2 _ _ _ (by omega), h3 _ _ _ (by omega),
    h4 _ _ _ (by omega), h5 _ _ (by omega), h6 _ _ _ (by omega),
    h7 _ _ _ (by omega), h8 _ _ _ (by omega), h9 _ _ (by omega),
    h10 _ (by omega), h11 _ _ _ (by omega), h12 _ _ _ (by omega),
    h13 _ (by omega), h14 _ _ _ (by omega), h15 _ (by omega),
    h16 _ _ _ (by omega), h17 _ _ _ (by omega), h18 _ _ _ (by omega)⟩

end ForexAnalyzer
